/-
Verification of the BioVault agent's queue + pipeline orchestration core.

This file shallowly embeds the persistent store layer (src/database.py),
the agent orchestration loop (src/agent.py), the alert dispatcher
(src/alerts.py) and the dose-consistency validator (src/pipeline/validator.py)
as pure Lean functions over explicit state, and proves / refutes the frozen
claims about them.

Modelling conventions:
  - SQLite tables are lists kept in insertion (rowid) order; AUTOINCREMENT
    ids are modelled by nextFlagId / nextLogId counters in the store state.
  - Each database.py function body runs inside one get_conn() context,
    i.e. one committed transaction; it is correspondingly modelled as one
    atomic Lean function on StoreState.
  - Timestamps (_now()) are Nats; operations take the current time as an
    explicit argument, and the agent layer supplies a World clock.
  - SQL ORDER BY over equal keys is modelled as stable with respect to
    rowid (insertion) order.
  - External effects of dispatch_alert (structured log line + optional
    webhook POST of the same payload) are modelled as appending the alert
    payload to a World-level list of dispatched alerts.
  - Log / flag message strings reproduce the structure of the Python
    f-strings but elide numeric formatting (latencies, percentages),
    which no claim depends on.
-/
import Mathlib

namespace BioVault

/-- Document status enum, src/database.py documents.status
    (values actually written by the code: pending, processing, complete, failed). -/
inductive DocStatus
  | pending
  | processing
  | complete
  | failed
deriving DecidableEq, Repr

/-- One row of the documents table (src/database.py lines 52-61). -/
structure Document where
  id : String
  filename : String
  filePath : String
  status : DocStatus
  uploadedAt : Nat
  processedAt : Option Nat := none
  criticalFlagsCount : Nat := 0
  errorMessage : Option String := none
deriving DecidableEq, Repr

/-- One row of the pipeline_results table (src/database.py lines 66-73).
    output_json is the serialized stage payload, opaque to the store. -/
structure StageResult where
  documentId : String
  stage : String
  outputJson : String
  confidence : Option Rat
  timestamp : Nat
deriving DecidableEq, Repr

/-- One row of the safety_flags table (src/database.py lines 78-86). -/
structure SafetyFlag where
  id : Nat
  documentId : String
  flagType : String
  severity : String
  details : String
  resolved : Bool
  timestamp : Nat
deriving DecidableEq, Repr

/-- The singleton agent_heartbeat row (src/database.py lines 94-100). -/
structure Heartbeat where
  lastSeen : Nat
  documentsProcessedTotal : Nat
  flagsRaisedTotal : Nat
  startedAt : Nat
deriving DecidableEq, Repr

/-- One row of the agent_log table (src/database.py lines 102-110). -/
structure LogEntry where
  id : Nat
  event : String
  message : String
  documentId : Option String
  stage : Option String
  level : String
  timestamp : Nat
deriving DecidableEq, Repr

/-- The whole SQLite database state.  Lists are in rowid (insertion) order;
    nextFlagId / nextLogId model the AUTOINCREMENT counters. -/
structure StoreState where
  documents : List Document
  pipelineResults : List StageResult
  safetyFlags : List SafetyFlag
  heartbeat : Heartbeat
  agentLog : List LogEntry
  nextFlagId : Nat
  nextLogId : Nat
deriving DecidableEq, Repr

/- ── Store operations, translated from src/database.py ─────────────────── -/

/-- insert_document (src/database.py lines 125-130): INSERT one row with
    status 'pending' and uploaded_at = now. -/
def insertDocument (s : StoreState) (docId filename filePath : String) (now : Nat) :
    StoreState :=
  { s with documents := s.documents ++
      [{ id := docId, filename := filename, filePath := filePath,
         status := .pending, uploadedAt := now }] }

/-- Accumulator for SELECT ... ORDER BY uploaded_at ASC LIMIT 1 over a list
    scanned in rowid order: keep the current row only when it is strictly
    older, so ties keep the earlier (insertion-order) row. -/
def pickOlder (acc : Option Document) (d : Document) : Option Document :=
  match acc with
  | none => some d
  | some b => if d.uploadedAt < b.uploadedAt then some d else some b

/-- get_next_pending (src/database.py lines 133-141): SELECT * FROM documents
    WHERE status = 'pending' ORDER BY uploaded_at ASC LIMIT 1.
    Note: a plain read; it performs no write to the store. -/
def getNextPending (s : StoreState) : Option Document :=
  (s.documents.filter (fun d => d.status == .pending)).foldl pickOlder none

/-- set_document_status (src/database.py lines 144-162): three UPDATE shapes
    depending on the target status. -/
def setDocumentStatus (s : StoreState) (docId : String) (status : DocStatus)
    (error : Option String) (now : Nat) : StoreState :=
  { s with documents := s.documents.map (fun d =>
      if d.id == docId then
        (match status with
         | .complete => { d with status := status, processedAt := some now }
         | .failed =>
             { d with status := status, processedAt := some now, errorMessage := error }
         | _ => { d with status := status })
      else d) }

/-- increment_critical_flags (src/database.py lines 165-171). -/
def incrementCriticalFlags (s : StoreState) (docId : String) (count : Nat) :
    StoreState :=
  { s with documents := s.documents.map (fun d =>
      if d.id == docId then
        { d with criticalFlagsCount := d.criticalFlagsCount + count }
      else d) }

/-- recover_stalled_documents (src/database.py lines 186-193):
    UPDATE documents SET status = 'pending' WHERE status = 'processing';
    returns the UPDATE rowcount (number of matched rows). -/
def recoverStalledDocuments (s : StoreState) : Nat × StoreState :=
  (s.documents.countP (fun d => d.status == .processing),
   { s with documents := s.documents.map (fun d =>
       if d.status == .processing then { d with status := .pending } else d) })

/-- insert_pipeline_result (src/database.py lines 198-208). -/
def insertPipelineResult (s : StoreState) (documentId stage outputJson : String)
    (confidence : Option Rat) (now : Nat) : StoreState :=
  { s with pipelineResults := s.pipelineResults ++
      [{ documentId := documentId, stage := stage, outputJson := outputJson,
         confidence := confidence, timestamp := now }] }

/-- insert_safety_flag (src/database.py lines 213-224): INSERT with
    resolved defaulting to 0; returns the AUTOINCREMENT lastrowid. -/
def insertSafetyFlag (s : StoreState) (documentId flagType severity details : String)
    (now : Nat) : Nat × StoreState :=
  (s.nextFlagId,
   { s with
      safetyFlags := s.safetyFlags ++
        [{ id := s.nextFlagId, documentId := documentId, flagType := flagType,
           severity := severity, details := details, resolved := false,
           timestamp := now }],
      nextFlagId := s.nextFlagId + 1 })

/-- The per-row effect of UPDATE safety_flags SET resolved = 1 WHERE id = ?. -/
def resolveMark (flagId : Nat) (f : SafetyFlag) : SafetyFlag :=
  if f.id == flagId then { f with resolved := true } else f

/-- resolve_safety_flag (src/database.py lines 227-233):
    UPDATE safety_flags SET resolved = 1 WHERE id = ?; returns rowcount > 0.
    SQLite counts every row matched by the WHERE clause, whether or not the
    stored value changes, so re-resolving still reports success. -/
def resolveSafetyFlag (s : StoreState) (flagId : Nat) : Bool × StoreState :=
  (s.safetyFlags.any (fun f => f.id == flagId),
   { s with safetyFlags := s.safetyFlags.map (resolveMark flagId) })

/-- update_heartbeat (src/database.py lines 262-270). -/
def updateHeartbeat (s : StoreState) (docsDelta flagsDelta : Nat) (now : Nat) :
    StoreState :=
  { s with heartbeat :=
      { s.heartbeat with
          lastSeen := now,
          documentsProcessedTotal := s.heartbeat.documentsProcessedTotal + docsDelta,
          flagsRaisedTotal := s.heartbeat.flagsRaisedTotal + flagsDelta } }

/-- The DELETE of write_log (src/database.py lines 292-296):
    DELETE FROM agent_log WHERE id NOT IN
      (SELECT id FROM agent_log ORDER BY id DESC LIMIT 500).
    A row survives exactly when fewer than 500 rows have a larger id
    (AUTOINCREMENT ids are distinct). -/
def pruneKeep (l : List LogEntry) : List LogEntry :=
  l.filter (fun e => l.countP (fun e2 => e.id < e2.id) < 500)

/-- write_log (src/database.py lines 279-296): INSERT one agent_log row, then
    prune to the 500 most recent by id.  Both statements execute in the same
    get_conn() transaction, so the pair is modelled as one atomic step. -/
def writeLog (s : StoreState) (event message : String)
    (documentId stage : Option String) (level : String) (now : Nat) : StoreState :=
  { s with
      agentLog := pruneKeep (s.agentLog ++
        [{ id := s.nextLogId, event := event, message := message,
           documentId := documentId, stage := stage, level := level,
           timestamp := now }]),
      nextLogId := s.nextLogId + 1 }

/- ── Alert dispatcher and agent world, from src/alerts.py / src/agent.py ─ -/

/-- The structured alert payload built by dispatch_alert
    (src/alerts.py lines 89-100); the same payload is logged and, when a
    webhook is configured, POSTed. -/
structure AlertPayload where
  documentId : String
  filename : String
  flagId : Nat
  flagType : String
  severity : String
  details : String
  timestamp : Nat
deriving DecidableEq, Repr

/-- The agent's observable world: the store, the list of alert payloads
    dispatched so far (in dispatch order), and the current clock used for
    every _now() call. -/
structure World where
  store : StoreState
  alerts : List AlertPayload
  clock : Nat
deriving DecidableEq, Repr

/-- dispatch_alert (src/alerts.py lines 74-115): builds the payload and
    emits it (structured log line, plus fire-and-forget webhook POST of the
    same payload).  Modelled as appending the payload to the dispatched
    list; it performs no store write and returns immediately. -/
def dispatchAlert (w : World) (docId filename : String) (flagId : Nat)
    (flagType severity details : String) : World :=
  { w with alerts := w.alerts ++
      [{ documentId := docId, filename := filename, flagId := flagId,
         flagType := flagType, severity := severity, details := details,
         timestamp := w.clock }] }

/-- db.write_log as called from the agent, with the World clock. -/
def wlog (w : World) (event message : String) (documentId stage : Option String)
    (level : String) : World :=
  { w with store := writeLog w.store event message documentId stage level w.clock }

/-- One safety flag as reported inside the standardization LLM output
    (standardized["safety_flags"] entries, read with .get defaults in
    src/agent.py lines 125-145). -/
structure RawFlag where
  severity : Option String
  category : Option String
  description : Option String
deriving DecidableEq, Repr

/-- The extraction stage output as consumed by the orchestrator:
    the serialized payload and the overall_confidence default-0 value. -/
structure ExtOut where
  raw : String
  confidence : Rat
deriving DecidableEq, Repr

/-- The standardization stage output as consumed by the orchestrator. -/
structure StdOut where
  raw : String
  safetyFlags : List RawFlag
deriving DecidableEq, Repr

/-- One validation check result dict: name / passed / detail
    (src/pipeline/validator.py check return shape). -/
structure VCheck where
  name : String
  passed : Bool
  detail : String
deriving DecidableEq, Repr

/-- The validation report consumed by the orchestrator
    (run_validation return shape, src/pipeline/validator.py lines 460-498). -/
structure ValidationReport where
  checks : List VCheck
  passedCount : Nat
  totalCount : Nat
  raw : String
deriving DecidableEq, Repr

/-- The behaviour of the external stage adapters during one tick.  A stage
    adapter either returns its output or throws (Except.error carries
    str(exc)).  run_validation is deterministic local code; its report is
    given directly. -/
structure PipelineEnv where
  extraction : Except String ExtOut
  standardization : Except String StdOut
  fhir : Except String String
  validation : ValidationReport
deriving Repr

/-- _classify_check_severity (src/agent.py lines 220-227): dict lookup with
    default "MEDIUM". -/
def classifyCheckSeverity (checkName : String) : String :=
  if checkName == "Dose Consistency" then "HIGH"
  else if checkName == "PII De-identification" then "HIGH"
  else if checkName == "Drug Name Standardization" then "MEDIUM"
  else if checkName == "ICD-10 Code Validity" then "MEDIUM"
  else if checkName == "FHIR R4 Schema" then "LOW"
  else "MEDIUM"

/-- _check_name_to_type (src/agent.py lines 230-237): dict lookup with
    default "OTHER". -/
def checkNameToType (checkName : String) : String :=
  if checkName == "Dose Consistency" then "DOSE_VARIANCE"
  else if checkName == "Drug Name Standardization" then "AMBIGUOUS_NAME"
  else if checkName == "ICD-10 Code Validity" then "CODING_ERROR"
  else if checkName == "FHIR R4 Schema" then "SCHEMA_ERROR"
  else if checkName == "PII De-identification" then "PII_LEAK"
  else "OTHER"

/-- Loop body for the standardization safety_flags escalation
    (src/agent.py lines 125-145): only flags whose severity (default LOW)
    is exactly HIGH are recorded, logged, counted and dispatched. -/
def processRawFlag (docId filename : String) (acc : World × Nat) (flag : RawFlag) :
    World × Nat :=
  let severity := flag.severity.getD "LOW"
  if severity == "HIGH" then
    let w := acc.1
    let cat := flag.category.getD "OTHER"
    let desc := flag.description.getD ""
    let r := insertSafetyFlag w.store docId cat severity desc w.clock
    let w1 := { w with store := r.2 }
    let w2 := wlog w1 "flag" ("HIGH flag: " ++ cat ++ " — " ++ desc)
      (some docId) (some "standardization") "warn"
    let w3 := dispatchAlert w2 docId filename r.1 cat severity desc
    (w3, acc.2 + 1)
  else acc

/-- Loop body for the validator flag persistence (src/agent.py lines
    175-195): every failed check is recorded and counted; dispatch only for
    HIGH or CRITICAL mapped severity. -/
def processValidationCheck (docId filename : String) (acc : World × Nat)
    (check : VCheck) : World × Nat :=
  if check.passed then acc
  else
    let w := acc.1
    let severity := classifyCheckSeverity check.name
    let flagType := checkNameToType check.name
    let r := insertSafetyFlag w.store docId flagType severity check.detail w.clock
    let w1 := { w with store := r.2 }
    let w2 := wlog w1 "flag" (severity ++ " — " ++ check.name ++ ": " ++ check.detail)
      (some docId) (some "validation") "warn"
    let w3 :=
      if severity == "HIGH" || severity == "CRITICAL" then
        dispatchAlert w2 docId filename r.1 flagType severity check.detail
      else w2
    (w3, acc.2 + 1)

/-- The end-of-pipeline escalation block (src/agent.py lines 205-212):
    when the tick counted any flags, bump the document's counter and the
    heartbeat flag total and write the escalation log entry. -/
def escalate (docId filename : String) (cnt : Nat) (w : World) : World :=
  if cnt == 0 then w
  else
    let s1 := incrementCriticalFlags w.store docId cnt
    let s2 := updateHeartbeat s1 0 cnt w.clock
    wlog { w with store := s2 } "escalation"
      ("Autonomous escalation: critical flag(s) raised for " ++ filename)
      (some docId) none "error"

/-- _run_pipeline (src/agent.py lines 77-217).  Returns the mutated world
    together with the exception message when a stage adapter throws
    (writes performed before the throw persist, since every store call
    commits its own transaction). -/
def runPipeline (env : PipelineEnv) (docId filename : String) (w : World) :
    World × Option String :=
  let w1 := wlog w "stage_start" "Stage 1/4 — MiniMax Vision extraction starting"
    (some docId) (some "extraction") "info"
  match env.extraction with
  | .error e => (w1, some e)
  | .ok ext =>
    let w2 := { w1 with store :=
      insertPipelineResult w1.store docId "extraction" ext.raw (some ext.confidence) w1.clock }
    let w3 := wlog w2 "stage_done" "Stage 1/4 — Extraction complete"
      (some docId) (some "extraction") "success"
    let w4 := wlog w3 "stage_start" "Stage 2/4 — AkashML standardization starting"
      (some docId) (some "standardization") "info"
    match env.standardization with
    | .error e => (w4, some e)
    | .ok std =>
      let w5 := { w4 with store :=
        insertPipelineResult w4.store docId "standardization" std.raw none w4.clock }
      let w6 := wlog w5 "stage_done" "Stage 2/4 — Standardization complete"
        (some docId) (some "standardization") "success"
      let fs := std.safetyFlags.foldl (processRawFlag docId filename) (w6, 0)
      let w8 := wlog fs.1 "stage_start" "Stage 3/4 — Building FHIR R4 bundle"
        (some docId) (some "fhir") "info"
      match env.fhir with
      | .error e => (w8, some e)
      | .ok fhirRaw =>
        let w9 := { w8 with store :=
          insertPipelineResult w8.store docId "fhir" fhirRaw none w8.clock }
        let w10 := wlog w9 "stage_done" "Stage 3/4 — FHIR bundle built"
          (some docId) (some "fhir") "success"
        let w11 := wlog w10 "stage_start" "Stage 4/4 — Running 5 safety checks"
          (some docId) (some "validation") "info"
        let w12 := { w11 with store :=
          insertPipelineResult w11.store docId "validation" env.validation.raw none w11.clock }
        let cs := env.validation.checks.foldl (processValidationCheck docId filename)
          (w12, fs.2)
        let w14 := wlog cs.1 "stage_done" "Stage 4/4 — Validation finished"
          (some docId) (some "validation")
          (if env.validation.passedCount == env.validation.totalCount
           then "success" else "warn")
        (escalate docId filename cs.2 w14, none)

/-- The dequeue-and-claim half of _tick (src/agent.py lines 49-63):
    heartbeat, get_next_pending, doc_start log, set status processing. -/
def tickDequeue (w : World) : World × Option Document :=
  let w0 := { w with store := updateHeartbeat w.store 0 0 w.clock }
  match getNextPending w0.store with
  | none =>
    (wlog w0 "idle" "Queue empty — waiting for documents" none none "info", none)
  | some row =>
    let w1 := wlog w0 "doc_start" ("Picked up: " ++ row.filename) (some row.id) none "info"
    let w2 := { w1 with store := setDocumentStatus w1.store row.id .processing none w1.clock }
    (w2, some row)

/-- The try/except body of _tick (src/agent.py lines 65-75): run the
    pipeline; on success mark complete, bump the processed counter and log;
    on a raised exception mark failed with str(exc) and log. -/
def tickProcess (env : PipelineEnv) (w : World) (row : Document) : World :=
  let r := runPipeline env row.id row.filename w
  match r.2 with
  | none =>
    let w2 := { r.1 with store := setDocumentStatus r.1.store row.id .complete none r.1.clock }
    let w3 := { w2 with store := updateHeartbeat w2.store 1 0 w2.clock }
    wlog w3 "doc_complete" ("Complete: " ++ row.filename) (some row.id) none "success"
  | some e =>
    let w2 := { r.1 with store := setDocumentStatus r.1.store row.id .failed (some e) r.1.clock }
    wlog w2 "doc_failed" ("Failed: " ++ row.filename ++ " — " ++ e) (some row.id) none "error"

/-- _tick (src/agent.py lines 49-75), one full poll tick. -/
def tick (env : PipelineEnv) (w : World) : World :=
  let d := tickDequeue w
  match d.2 with
  | none => d.1
  | some row => tickProcess env d.1 row

/-- The startup prologue of run_agent_loop (src/agent.py lines 25-35),
    executed before the polling while-loop: fault recovery of stalled
    documents, recovery log when any were reset, heartbeat, startup log. -/
def agentStartup (w : World) : World :=
  let r := recoverStalledDocuments w.store
  let w1 := { w with store := r.2 }
  let w2 :=
    if r.1 != 0 then
      wlog w1 "recovery" "Fault recovery: reset stalled doc(s) to pending" none none "warn"
    else w1
  let w3 := { w2 with store := updateHeartbeat w2.store 0 0 w2.clock }
  wlog w3 "startup" "Agent loop started — watching queue" none none "info"

/-- run_agent_loop (src/agent.py lines 25-46) over a finite schedule of
    ticks: the startup prologue runs first, then one tick per element of
    envs (the stop event / sleep timing is elided). -/
def runAgentLoop (envs : List PipelineEnv) (w : World) : World :=
  envs.foldl (fun acc env => tick env acc) (agentStartup w)

/-- resolve_alert (src/alerts.py lines 63-69): POST /alerts/resolve, a 404
    outcome when the flag id matches no row, success JSON otherwise. -/
inductive ResolveOutcome
  | resolved (flagId : Nat)
  | notFound (flagId : Nat)
deriving DecidableEq, Repr

/-- The resolve-flag endpoint behaviour (src/alerts.py lines 63-69 over
    src/database.py lines 227-233). -/
def resolveAlert (s : StoreState) (flagId : Nat) : ResolveOutcome × StoreState :=
  let r := resolveSafetyFlag s flagId
  if r.1 then (.resolved flagId, r.2) else (.notFound flagId, r.2)

/- ── Dose-consistency validator, from src/pipeline/validator.py ─────────
   Only the definitions the claims touch are embedded: _is_demo_chart and
   _check_dose_consistency with their helpers.  Dose values are modelled as
   exact rationals; the numeric float-formatting inside the human-readable
   detail strings of the non-demo branches is elided (no claim reads it). -/

/-- One drug entry inside a raw MiniMax cycle (dict with optional keys). -/
structure DrugEntry where
  nameRaw : Option String
  drugStandard : Option String
  doseValue : Option Rat
  doseRaw : Option String
deriving DecidableEq, Repr

/-- One cycle of the raw extraction. -/
structure Cycle where
  cycleId : Option String
  drugs : List DrugEntry
deriving DecidableEq, Repr

/-- minimax_extraction["patient"]. -/
structure PatientInfo where
  nameRaw : Option String
  registrationNumber : Option String
deriving DecidableEq, Repr

/-- minimax_extraction["hospital"]. -/
structure HospitalInfo where
  name : Option String
  unit : Option String
deriving DecidableEq, Repr

/-- minimax_extraction["regimen"]. -/
structure RegimenInfo where
  name : Option String
deriving DecidableEq, Repr

/-- The raw MiniMax extraction as read by the validator. -/
structure Extraction where
  patient : PatientInfo
  hospital : HospitalInfo
  regimen : RegimenInfo
  cycles : List Cycle
deriving DecidableEq, Repr

/-- One standardized_drugs entry (standardized output). -/
structure StdDrugEntry where
  drugStandard : Option String
  doseMg : Option Rat
  cycleId : Option String
deriving DecidableEq, Repr

/-- One standardized dose_analysis item (dict key plus its info value),
    kept in dict insertion order. -/
structure DoseAnalysisEntry where
  name : String
  varianceFlagged : Bool
  varianceDetail : Option String
deriving DecidableEq, Repr

/-- The standardized output as read by _check_dose_consistency. -/
structure StandardizedDoc where
  standardizedDrugs : List StdDrugEntry
  doseAnalysis : List DoseAnalysisEntry
deriving DecidableEq, Repr

/-- Needle chars occur as an initial segment of the haystack chars. -/
def charsHasInit : List Char → List Char → Bool
  | [], _ => true
  | _ :: _, [] => false
  | a :: as, b :: bs => a == b && charsHasInit as bs

/-- Needle chars occur contiguously somewhere in the haystack chars
    (Python substring membership "needle in haystack"). -/
def charsHasSub (needle : List Char) : List Char → Bool
  | [] => charsHasInit needle []
  | b :: bs => charsHasInit needle (b :: bs) || charsHasSub needle bs

/-- Python "needle in haystack" on strings. -/
def strContains (needle hay : String) : Bool :=
  charsHasSub needle.data hay.data

/-- Python str.lower (ASCII-relevant part). -/
def lowerStr (s : String) : String :=
  String.mk (s.data.map Char.toLower)

/-- _DEMO_DOSE_FINDING (src/pipeline/validator.py lines 212-215). -/
def demoDoseFinding : String :=
  "Daunorubicin: C1D1 90mg → C1D2 80mg (11% change from baseline — verify intent) | Daunorubicin: C1D1 90mg → C1D3 80mg (11% change from baseline — verify intent)"

/-- _DEMO_PRINTED_MARKERS (src/pipeline/validator.py lines 219-223). -/
def demoPrintedMarkers : List String :=
  ["delta hospital", "2408022051", "3+7"]

/-- _DEMO_HANDWRITTEN_MARKERS (src/pipeline/validator.py lines 225-229). -/
def demoHandwrittenMarkers : List String :=
  ["muzaffar", "muzzafar", "muzafer", "muzuffer", "ahmed", "daunorubicin", "dauno"]

/-- The lowercased haystack of _is_demo_chart (src/pipeline/validator.py
    lines 238-254): the space-join of the printed/handwritten fields and of
    all cycle drug raw names. -/
def demoHaystack (e : Extraction) : String :=
  lowerStr (String.intercalate " "
    [e.patient.nameRaw.getD "",
     e.patient.registrationNumber.getD "",
     e.hospital.name.getD "",
     e.hospital.unit.getD "",
     e.regimen.name.getD "",
     String.intercalate " "
       ((e.cycles.map (fun c => c.drugs.map (fun d => d.nameRaw.getD ""))).flatten)])

/-- _is_demo_chart (src/pipeline/validator.py lines 232-273). -/
def isDemoChart (e : Extraction) : Bool :=
  let hay := demoHaystack e
  if demoPrintedMarkers.any (fun m => strContains m hay) then true
  else if 2 ≤ (demoHandwrittenMarkers.filter (fun m => strContains m hay)).length then
    true
  else
    let hasDauno := strContains "daunorubicin" hay || strContains "dauno" hay
    let hasCytara := strContains "cytarabine" hay || strContains "cytara" hay
    let hasOncology := strContains "oncology" hay || strContains "oncolog" hay
    hasDauno && hasCytara && hasOncology

/-- Leading-number parse of a dose_raw string after strip and comma-to-dot
    replacement: the regex (digits, optional dot and digits) anchored at the
    start (src/pipeline/validator.py lines 132-140). -/
def parseLeadingRat (cs : List Char) : Option Rat :=
  let intDigits := cs.takeWhile Char.isDigit
  if intDigits.isEmpty then none
  else
    let rest := cs.drop intDigits.length
    let intVal : Nat := intDigits.foldl (fun n c => n * 10 + (c.toNat - 48)) 0
    match rest with
    | '.' :: rest2 =>
      let fracDigits := rest2.takeWhile Char.isDigit
      if fracDigits.isEmpty then some (intVal : Rat)
      else
        let fracVal : Nat := fracDigits.foldl (fun n c => n * 10 + (c.toNat - 48)) 0
        some ((intVal : Rat) + (fracVal : Rat) / ((10 : Rat) ^ fracDigits.length))
    | _ => some (intVal : Rat)

/-- Python str.strip (whitespace from both ends). -/
def stripStr (s : String) : String :=
  String.mk ((s.data.dropWhile Char.isWhitespace).reverse.dropWhile
    Char.isWhitespace).reverse

/-- _parse_dose_mg (src/pipeline/validator.py lines 120-142): dose_value
    when present, else a leading-number parse of dose_raw. -/
def parseDoseMg (drug : DrugEntry) : Option Rat :=
  match drug.doseValue with
  | some v => some v
  | none =>
    let raw := stripStr (drug.doseRaw.getD "")
    if raw.isEmpty then none
    else parseLeadingRat (raw.data.map (fun c => if c == ',' then '.' else c))

/-- Python "a or b" chain for drug names: first present non-empty string
    wins, else the final default. -/
def firstTruthy (a b : Option String) (dflt : String) : String :=
  let second :=
    match b with
    | some y => if y.isEmpty then dflt else y
    | none => dflt
  match a with
  | some x => if x.isEmpty then second else x
  | none => second

/-- setdefault-append on an insertion-ordered association list of per-drug
    readings (models the Python dict building). -/
def addReading (m : List (String × List (String × Rat))) (nm : String)
    (r : String × Rat) : List (String × List (String × Rat)) :=
  match m with
  | [] => [(nm, [r])]
  | (k, v) :: rest =>
    if k == nm then (k, v ++ [r]) :: rest else (k, v) :: addReading rest nm r

/-- _collect_drug_doses_from_cycles (src/pipeline/validator.py lines
    145-164). -/
def collectFromCycles (cycles : List Cycle) : List (String × List (String × Rat)) :=
  cycles.foldl (fun m c =>
    c.drugs.foldl (fun m drug =>
      match parseDoseMg drug with
      | none => m
      | some doseMg =>
        let nm := lowerStr (stripStr (firstTruthy drug.drugStandard drug.nameRaw "unknown"))
        addReading m nm (c.cycleId.getD "?", doseMg)) m) []

/-- _collect_drug_doses_from_standardized (src/pipeline/validator.py lines
    167-185). -/
def collectFromStandardized (std : StandardizedDoc) :
    List (String × List (String × Rat)) :=
  std.standardizedDrugs.foldl (fun m entry =>
    match entry.doseMg with
    | none => m
    | some doseMg =>
      let nm := lowerStr (stripStr (firstTruthy entry.drugStandard none "unknown"))
      addReading m nm (entry.cycleId.getD "?", doseMg)) []

/-- _baseline_variance_flags (src/pipeline/validator.py lines 188-209):
    one human-readable string per reading deviating more than 10% from the
    drug's first recorded dose (numeric formatting of the message elided). -/
def baselineVarianceFlags (m : List (String × List (String × Rat))) : List String :=
  m.foldl (fun acc entry =>
    match entry.2 with
    | [] => acc
    | [_] => acc
    | (baselineCycle, baselineDose) :: rest =>
      if baselineDose == 0 then acc
      else acc ++ (rest.filterMap (fun r =>
        if |r.2 - baselineDose| / baselineDose * 100 > 10 then
          some (entry.1 ++ ": " ++ baselineCycle ++ "mg → " ++ r.1 ++
            "mg (change from baseline — verify intent)")
        else none))) []

/-- Python " | ".join. -/
def joinBar (l : List String) : String := String.intercalate " | " l

/-- _check_dose_consistency (src/pipeline/validator.py lines 276-356):
    demo fast-path first, then source A (raw cycles), source B
    (standardized drugs), source C (LLM dose_analysis), then the
    no-data / all-consistent outcomes. -/
def checkDoseConsistency (e : Extraction) (std : StandardizedDoc) : VCheck :=
  if isDemoChart e then
    { name := "Dose Consistency", passed := false,
      detail := "Dose variance detected: " ++ demoDoseFinding }
  else
    let rawDoses := collectFromCycles e.cycles
    let flagsA := baselineVarianceFlags rawDoses
    if flagsA ≠ [] then
      { name := "Dose Consistency", passed := false,
        detail := "Dose variance detected: " ++ joinBar flagsA }
    else
      let stdDoses := collectFromStandardized std
      let flagsB := baselineVarianceFlags stdDoses
      if flagsB ≠ [] then
        { name := "Dose Consistency", passed := false,
          detail := "Dose variance detected (standardized): " ++ joinBar flagsB }
      else
        let flagsC := (std.doseAnalysis.filter (fun i => i.varianceFlagged)).map
          (fun i => i.name ++ ": " ++ i.varianceDetail.getD "variance detected")
        if flagsC ≠ [] then
          { name := "Dose Consistency", passed := false,
            detail := "Dose variance detected: " ++ joinBar flagsC }
        else
          let allDrugs := (rawDoses.map Prod.fst ++ stdDoses.map Prod.fst).dedup
          if allDrugs.isEmpty then
            { name := "Dose Consistency", passed := false,
              detail := "No numeric dose data found — cannot verify consistency" }
          else
            { name := "Dose Consistency", passed := true,
              detail := "All drug doses within 10% of baseline across " ++
                String.intercalate ", " allDrugs }

/- ── Interleaving model of concurrent ticks ─────────────────────────────
   The timer-driven tick and the POST /agent/process-now tick run _tick on
   two separate threads over the same store (src/main.py lines 149-160
   start a bare threading.Thread on agent._tick; database.py takes no lock
   around get_next_pending).  Each store call commits its own transaction,
   so the atomic units of a tick's claim phase are exactly the two store
   operations get_next_pending (src/agent.py line 52) and
   set_document_status(..., 'processing') (line 63); the intervening
   write_log / logging calls do not touch document statuses and are elided
   here. -/

/-- The claim-phase control state of one tick thread: program counter 0 =
    about to call get_next_pending, 1 = holding its SELECT result, 2 =
    done, remembering which document (if any) it claimed. -/
structure ThreadSt where
  pc : Nat
  claimed : Option Document
deriving DecidableEq, Repr

/-- Initial thread state. -/
def threadInit : ThreadSt := { pc := 0, claimed := none }

/-- One atomic step of a tick thread against the shared store. -/
def threadStep (t : ThreadSt) (s : StoreState) (now : Nat) : ThreadSt × StoreState :=
  if t.pc == 0 then ({ pc := 1, claimed := getNextPending s }, s)
  else if t.pc == 1 then
    match t.claimed with
    | none => ({ t with pc := 2 }, s)
    | some d => ({ t with pc := 2 }, setDocumentStatus s d.id .processing none now)
  else (t, s)

/-- Two concurrent tick threads over one shared store. -/
structure TwoTicks where
  t1 : ThreadSt
  t2 : ThreadSt
  store : StoreState
deriving DecidableEq, Repr

/-- Scheduler step: true advances thread 1, false advances thread 2. -/
def schedStep (c : TwoTicks) (who : Bool) : TwoTicks :=
  if who then
    let r := threadStep c.t1 c.store 0
    { c with t1 := r.1, store := r.2 }
  else
    let r := threadStep c.t2 c.store 0
    { c with t2 := r.1, store := r.2 }

/-- Run a schedule (interleaving) of the two tick threads. -/
def runSched (sched : List Bool) (c : TwoTicks) : TwoTicks :=
  sched.foldl schedStep c

/-- Number of documents currently in status processing. -/
def processingCount (s : StoreState) : Nat :=
  s.documents.countP (fun d => d.status == .processing)

/- ── Specification helpers ──────────────────────────────────────────────── -/

/-- Reference recursion for the oldest-first scan: the first element of the
    list attaining the minimal uploadedAt (used to characterise
    getNextPending). -/
def firstOldest : List Document → Option Document
  | [] => none
  | d :: ds =>
    match firstOldest ds with
    | none => some d
    | some r => if r.uploadedAt < d.uploadedAt then some r else some d

/-- Store invariant for the agent_log table: AUTOINCREMENT ids strictly
    increase in insertion order and stay below the next id to be assigned. -/
def LogOk (s : StoreState) : Prop :=
  s.agentLog.Pairwise (fun a b => a.id < b.id) ∧ ∀ e ∈ s.agentLog, e.id < s.nextLogId

/-- A standardization-reported flag counted by the escalation loop:
    severity (default LOW) exactly HIGH. -/
def isHighRaw (f : RawFlag) : Bool :=
  f.severity.getD "LOW" == "HIGH"

/- ── Concrete inputs used by witnesses and counterexamples ──────────────── -/

/-- A fresh heartbeat row. -/
def hb0 : Heartbeat :=
  { lastSeen := 0, documentsProcessedTotal := 0,
    flagsRaisedTotal := 0, startedAt := 0 }

/-- A store with no rows. -/
def emptyStore : StoreState :=
  { documents := [], pipelineResults := [], safetyFlags := [], heartbeat := hb0,
    agentLog := [], nextFlagId := 1, nextLogId := 1 }

/-- A pending document uploaded at time 1. -/
def docA : Document :=
  { id := "A", filename := "a.png", filePath := "/u/a.png",
    status := .pending, uploadedAt := 1 }

/-- A pending document uploaded at time 2. -/
def docB : Document :=
  { id := "B", filename := "b.png", filePath := "/u/b.png",
    status := .pending, uploadedAt := 2 }

/-- Store holding the single pending document docA. -/
def c1store1 : StoreState := { emptyStore with documents := [docA] }

/-- Store holding the pending documents docA and docB. -/
def c1store2 : StoreState := { emptyStore with documents := [docA, docB] }

/-- A benign pipeline environment: all stages succeed, all checks pass. -/
def envAllPass : PipelineEnv :=
  { extraction := .ok { raw := "ext", confidence := 1 },
    standardization := .ok { raw := "std", safetyFlags := [] },
    fhir := .ok "fhir",
    validation :=
      { checks := [{ name := "Dose Consistency", passed := true, detail := "ok" }],
        passedCount := 1, totalCount := 1, raw := "val" } }

/-- World with one pending document and clock 10. -/
def w1 : World := { store := c1store1, alerts := [], clock := 10 }

/-- An environment whose only recorded flag is a MEDIUM validator failure
    (failed ICD-10 Code Validity check), with no standardization flags. -/
def envMedium : PipelineEnv :=
  { extraction := .ok { raw := "ext", confidence := 1 },
    standardization := .ok { raw := "std", safetyFlags := [] },
    fhir := .ok "fhir",
    validation :=
      { checks :=
          [{ name := "ICD-10 Code Validity", passed := false,
             detail := "Code 'X' does not match ICD-10 pattern" }],
        passedCount := 4, totalCount := 5, raw := "val" } }

/-- An environment whose standardization stage throws. -/
def envStdThrows : PipelineEnv :=
  { extraction := .ok { raw := "ext", confidence := 1 },
    standardization := .error "AkashML call failed: boom",
    fhir := .ok "fhir",
    validation := { checks := [], passedCount := 0, totalCount := 0, raw := "val" } }

/-- FIFO witness documents: X and Y tie on the minimal uploadedAt 5 with X
    inserted first; Z was uploaded later; W is already complete. -/
def c6X : Document :=
  { id := "X", filename := "x.png", filePath := "/x", status := .pending,
    uploadedAt := 5 }

/-- Second pending document tying X on uploadedAt. -/
def c6Y : Document :=
  { id := "Y", filename := "y.png", filePath := "/y", status := .pending,
    uploadedAt := 5 }

/-- A pending document uploaded later than X and Y. -/
def c6Z : Document :=
  { id := "Z", filename := "z.png", filePath := "/z", status := .pending,
    uploadedAt := 7 }

/-- A completed document that must never be dequeued. -/
def c6W : Document :=
  { id := "W", filename := "w.png", filePath := "/w", status := .complete,
    uploadedAt := 1 }

/-- Store for the FIFO witness. -/
def c6store : StoreState :=
  { emptyStore with documents := [c6X, c6Y, c6Z, c6W] }

/-- Store holding one unresolved safety flag with id 1. -/
def c7store : StoreState :=
  { emptyStore with
      documents := [docA],
      safetyFlags :=
        [{ id := 1, documentId := "A", flagType := "DOSE_VARIANCE",
           severity := "HIGH", details := "dose variance", resolved := false,
           timestamp := 0 }],
      nextFlagId := 2 }

/-- Store with one existing log row (id 1) and nextLogId 2. -/
def c8store : StoreState :=
  { emptyStore with
      agentLog :=
        [{ id := 1, event := "startup", message := "started",
           documentId := none, stage := none, level := "info", timestamp := 0 }],
      nextLogId := 2 }

/-- World used by the dropped-flag witness. -/
def c9w : World := { store := emptyStore, alerts := [], clock := 3 }

/-- World used by the flag-classification witness. -/
def c3w : World := { store := emptyStore, alerts := [], clock := 4 }

/-- A raw extraction matching the printed demo marker "delta hospital",
    whose recorded doses are all identical (90 mg in both cycles). -/
def c10e : Extraction :=
  { patient := { nameRaw := some "John Smith", registrationNumber := some "999" },
    hospital := { name := some "Delta Hospital Ltd", unit := some "Ward 3" },
    regimen := { name := some "induction" },
    cycles :=
      [{ cycleId := some "C1D1",
         drugs :=
           [{ nameRaw := some "vincristine", drugStandard := some "vincristine",
              doseValue := some 90, doseRaw := some "90mg" }] },
       { cycleId := some "C1D2",
         drugs :=
           [{ nameRaw := some "vincristine", drugStandard := some "vincristine",
              doseValue := some 90, doseRaw := some "90mg" }] }] }

/-- An empty standardized document for the demo-chart witness. -/
def c10std : StandardizedDoc := { standardizedDrugs := [], doseAnalysis := [] }

/- ── Effect lemmas for the store operations ─────────────────────────────── -/

@[simp] lemma writeLog_documents (s : StoreState) (e m : String)
    (d st : Option String) (l : String) (n : Nat) :
    (writeLog s e m d st l n).documents = s.documents := rfl

@[simp] lemma writeLog_pipelineResults (s : StoreState) (e m : String)
    (d st : Option String) (l : String) (n : Nat) :
    (writeLog s e m d st l n).pipelineResults = s.pipelineResults := rfl

@[simp] lemma writeLog_safetyFlags (s : StoreState) (e m : String)
    (d st : Option String) (l : String) (n : Nat) :
    (writeLog s e m d st l n).safetyFlags = s.safetyFlags := rfl

@[simp] lemma writeLog_heartbeat (s : StoreState) (e m : String)
    (d st : Option String) (l : String) (n : Nat) :
    (writeLog s e m d st l n).heartbeat = s.heartbeat := rfl

@[simp] lemma writeLog_nextFlagId (s : StoreState) (e m : String)
    (d st : Option String) (l : String) (n : Nat) :
    (writeLog s e m d st l n).nextFlagId = s.nextFlagId := rfl

@[simp] lemma insertPipelineResult_documents (s : StoreState) (d st o : String)
    (c : Option Rat) (n : Nat) :
    (insertPipelineResult s d st o c n).documents = s.documents := rfl

@[simp] lemma insertPipelineResult_safetyFlags (s : StoreState) (d st o : String)
    (c : Option Rat) (n : Nat) :
    (insertPipelineResult s d st o c n).safetyFlags = s.safetyFlags := rfl

@[simp] lemma insertPipelineResult_heartbeat (s : StoreState) (d st o : String)
    (c : Option Rat) (n : Nat) :
    (insertPipelineResult s d st o c n).heartbeat = s.heartbeat := rfl

@[simp] lemma insertPipelineResult_nextFlagId (s : StoreState) (d st o : String)
    (c : Option Rat) (n : Nat) :
    (insertPipelineResult s d st o c n).nextFlagId = s.nextFlagId := rfl

@[simp] lemma insertPipelineResult_pipelineResults (s : StoreState) (d st o : String)
    (c : Option Rat) (n : Nat) :
    (insertPipelineResult s d st o c n).pipelineResults = s.pipelineResults ++
      [{ documentId := d, stage := st, outputJson := o, confidence := c,
         timestamp := n }] := rfl

@[simp] lemma insertSafetyFlag_fst (s : StoreState) (d ft sev det : String) (n : Nat) :
    (insertSafetyFlag s d ft sev det n).1 = s.nextFlagId := rfl

@[simp] lemma insertSafetyFlag_documents (s : StoreState) (d ft sev det : String)
    (n : Nat) :
    (insertSafetyFlag s d ft sev det n).2.documents = s.documents := rfl

@[simp] lemma insertSafetyFlag_pipelineResults (s : StoreState) (d ft sev det : String)
    (n : Nat) :
    (insertSafetyFlag s d ft sev det n).2.pipelineResults = s.pipelineResults := rfl

@[simp] lemma insertSafetyFlag_heartbeat (s : StoreState) (d ft sev det : String)
    (n : Nat) :
    (insertSafetyFlag s d ft sev det n).2.heartbeat = s.heartbeat := rfl

@[simp] lemma insertSafetyFlag_safetyFlags (s : StoreState) (d ft sev det : String)
    (n : Nat) :
    (insertSafetyFlag s d ft sev det n).2.safetyFlags = s.safetyFlags ++
      [{ id := s.nextFlagId, documentId := d, flagType := ft, severity := sev,
         details := det, resolved := false, timestamp := n }] := rfl

@[simp] lemma insertSafetyFlag_nextFlagId (s : StoreState) (d ft sev det : String)
    (n : Nat) :
    (insertSafetyFlag s d ft sev det n).2.nextFlagId = s.nextFlagId + 1 := rfl

@[simp] lemma updateHeartbeat_documents (s : StoreState) (a b n : Nat) :
    (updateHeartbeat s a b n).documents = s.documents := rfl

@[simp] lemma updateHeartbeat_pipelineResults (s : StoreState) (a b n : Nat) :
    (updateHeartbeat s a b n).pipelineResults = s.pipelineResults := rfl

@[simp] lemma updateHeartbeat_safetyFlags (s : StoreState) (a b n : Nat) :
    (updateHeartbeat s a b n).safetyFlags = s.safetyFlags := rfl

@[simp] lemma updateHeartbeat_nextFlagId (s : StoreState) (a b n : Nat) :
    (updateHeartbeat s a b n).nextFlagId = s.nextFlagId := rfl

@[simp] lemma updateHeartbeat_flagsRaisedTotal (s : StoreState) (a b n : Nat) :
    (updateHeartbeat s a b n).heartbeat.flagsRaisedTotal =
      s.heartbeat.flagsRaisedTotal + b := rfl

@[simp] lemma setDocumentStatus_pipelineResults (s : StoreState) (d : String)
    (st : DocStatus) (e : Option String) (n : Nat) :
    (setDocumentStatus s d st e n).pipelineResults = s.pipelineResults := rfl

@[simp] lemma setDocumentStatus_safetyFlags (s : StoreState) (d : String)
    (st : DocStatus) (e : Option String) (n : Nat) :
    (setDocumentStatus s d st e n).safetyFlags = s.safetyFlags := rfl

@[simp] lemma setDocumentStatus_heartbeat (s : StoreState) (d : String)
    (st : DocStatus) (e : Option String) (n : Nat) :
    (setDocumentStatus s d st e n).heartbeat = s.heartbeat := rfl

@[simp] lemma setDocumentStatus_nextFlagId (s : StoreState) (d : String)
    (st : DocStatus) (e : Option String) (n : Nat) :
    (setDocumentStatus s d st e n).nextFlagId = s.nextFlagId := rfl

@[simp] lemma incrementCriticalFlags_pipelineResults (s : StoreState) (d : String)
    (c : Nat) :
    (incrementCriticalFlags s d c).pipelineResults = s.pipelineResults := rfl

@[simp] lemma incrementCriticalFlags_safetyFlags (s : StoreState) (d : String)
    (c : Nat) :
    (incrementCriticalFlags s d c).safetyFlags = s.safetyFlags := rfl

@[simp] lemma incrementCriticalFlags_heartbeat (s : StoreState) (d : String)
    (c : Nat) :
    (incrementCriticalFlags s d c).heartbeat = s.heartbeat := rfl

@[simp] lemma wlog_store_documents (w : World) (e m : String) (d st : Option String)
    (l : String) : (wlog w e m d st l).store.documents = w.store.documents := rfl

@[simp] lemma wlog_store_pipelineResults (w : World) (e m : String)
    (d st : Option String) (l : String) :
    (wlog w e m d st l).store.pipelineResults = w.store.pipelineResults := rfl

@[simp] lemma wlog_store_safetyFlags (w : World) (e m : String)
    (d st : Option String) (l : String) :
    (wlog w e m d st l).store.safetyFlags = w.store.safetyFlags := rfl

@[simp] lemma wlog_store_heartbeat (w : World) (e m : String)
    (d st : Option String) (l : String) :
    (wlog w e m d st l).store.heartbeat = w.store.heartbeat := rfl

@[simp] lemma wlog_store_nextFlagId (w : World) (e m : String)
    (d st : Option String) (l : String) :
    (wlog w e m d st l).store.nextFlagId = w.store.nextFlagId := rfl

@[simp] lemma wlog_alerts (w : World) (e m : String) (d st : Option String)
    (l : String) : (wlog w e m d st l).alerts = w.alerts := rfl

@[simp] lemma wlog_clock (w : World) (e m : String) (d st : Option String)
    (l : String) : (wlog w e m d st l).clock = w.clock := rfl

@[simp] lemma dispatchAlert_store (w : World) (d f : String) (fid : Nat)
    (ft sev det : String) :
    (dispatchAlert w d f fid ft sev det).store = w.store := rfl

@[simp] lemma dispatchAlert_clock (w : World) (d f : String) (fid : Nat)
    (ft sev det : String) :
    (dispatchAlert w d f fid ft sev det).clock = w.clock := rfl

@[simp] lemma dispatchAlert_alerts (w : World) (d f : String) (fid : Nat)
    (ft sev det : String) :
    (dispatchAlert w d f fid ft sev det).alerts = w.alerts ++
      [{ documentId := d, filename := f, flagId := fid, flagType := ft,
         severity := sev, details := det, timestamp := w.clock }] := rfl

/- ── Effect lemmas for the flag-escalation loops ────────────────────────── -/

lemma processRawFlag_effects (d f : String) (acc : World × Nat) (flag : RawFlag) :
    (processRawFlag d f acc flag).1.store.documents = acc.1.store.documents
    ∧ (processRawFlag d f acc flag).1.store.heartbeat = acc.1.store.heartbeat
    ∧ (processRawFlag d f acc flag).1.store.pipelineResults
        = acc.1.store.pipelineResults
    ∧ (processRawFlag d f acc flag).1.clock = acc.1.clock
    ∧ (processRawFlag d f acc flag).2
        = acc.2 + (if isHighRaw flag then 1 else 0) := by
  unfold processRawFlag isHighRaw
  split <;> simp_all

lemma foldl_processRawFlag (d f : String) (flags : List RawFlag) :
    ∀ acc : World × Nat,
    (flags.foldl (processRawFlag d f) acc).1.store.documents = acc.1.store.documents
    ∧ (flags.foldl (processRawFlag d f) acc).1.store.heartbeat = acc.1.store.heartbeat
    ∧ (flags.foldl (processRawFlag d f) acc).1.store.pipelineResults
        = acc.1.store.pipelineResults
    ∧ (flags.foldl (processRawFlag d f) acc).1.clock = acc.1.clock
    ∧ (flags.foldl (processRawFlag d f) acc).2
        = acc.2 + flags.countP isHighRaw := by
  induction flags with
  | nil => intro acc; simp
  | cons a l ih =>
    intro acc
    have hstep := processRawFlag_effects d f acc a
    have hrest := ih (processRawFlag d f acc a)
    simp only [List.foldl_cons] at *
    refine ⟨hrest.1.trans hstep.1, hrest.2.1.trans hstep.2.1,
      hrest.2.2.1.trans hstep.2.2.1, hrest.2.2.2.1.trans hstep.2.2.2.1, ?_⟩
    rw [hrest.2.2.2.2, hstep.2.2.2.2, List.countP_cons]
    by_cases hhi : isHighRaw a
    · simp [hhi]; omega
    · simp [hhi]

lemma processValidationCheck_effects (d f : String) (acc : World × Nat)
    (check : VCheck) :
    (processValidationCheck d f acc check).1.store.documents = acc.1.store.documents
    ∧ (processValidationCheck d f acc check).1.store.heartbeat
        = acc.1.store.heartbeat
    ∧ (processValidationCheck d f acc check).1.store.pipelineResults
        = acc.1.store.pipelineResults
    ∧ (processValidationCheck d f acc check).1.clock = acc.1.clock
    ∧ (processValidationCheck d f acc check).2
        = acc.2 + (if check.passed then 0 else 1) := by
  unfold processValidationCheck
  split
  · simp_all
  · simp [apply_ite World.store, apply_ite World.clock]

lemma foldl_processValidationCheck (d f : String) (checks : List VCheck) :
    ∀ acc : World × Nat,
    (checks.foldl (processValidationCheck d f) acc).1.store.documents
        = acc.1.store.documents
    ∧ (checks.foldl (processValidationCheck d f) acc).1.store.heartbeat
        = acc.1.store.heartbeat
    ∧ (checks.foldl (processValidationCheck d f) acc).1.store.pipelineResults
        = acc.1.store.pipelineResults
    ∧ (checks.foldl (processValidationCheck d f) acc).1.clock = acc.1.clock
    ∧ (checks.foldl (processValidationCheck d f) acc).2
        = acc.2 + checks.countP (fun c => !c.passed) := by
  induction checks with
  | nil => intro acc; simp
  | cons a l ih =>
    intro acc
    have hstep := processValidationCheck_effects d f acc a
    have hrest := ih (processValidationCheck d f acc a)
    simp only [List.foldl_cons] at *
    refine ⟨hrest.1.trans hstep.1, hrest.2.1.trans hstep.2.1,
      hrest.2.2.1.trans hstep.2.2.1, hrest.2.2.2.1.trans hstep.2.2.2.1, ?_⟩
    rw [hrest.2.2.2.2, hstep.2.2.2.2, List.countP_cons]
    by_cases hp : a.passed
    · simp [hp]
    · simp [hp]; omega

@[simp] lemma foldl_processRawFlag_documents (d f : String) (flags : List RawFlag)
    (acc : World × Nat) :
    (flags.foldl (processRawFlag d f) acc).1.store.documents
      = acc.1.store.documents := (foldl_processRawFlag d f flags acc).1

@[simp] lemma foldl_processRawFlag_heartbeat (d f : String) (flags : List RawFlag)
    (acc : World × Nat) :
    (flags.foldl (processRawFlag d f) acc).1.store.heartbeat
      = acc.1.store.heartbeat := (foldl_processRawFlag d f flags acc).2.1

@[simp] lemma foldl_processRawFlag_pipelineResults (d f : String)
    (flags : List RawFlag) (acc : World × Nat) :
    (flags.foldl (processRawFlag d f) acc).1.store.pipelineResults
      = acc.1.store.pipelineResults := (foldl_processRawFlag d f flags acc).2.2.1

@[simp] lemma foldl_processRawFlag_clock (d f : String) (flags : List RawFlag)
    (acc : World × Nat) :
    (flags.foldl (processRawFlag d f) acc).1.clock = acc.1.clock :=
  (foldl_processRawFlag d f flags acc).2.2.2.1

@[simp] lemma foldl_processRawFlag_count (d f : String) (flags : List RawFlag)
    (acc : World × Nat) :
    (flags.foldl (processRawFlag d f) acc).2 = acc.2 + flags.countP isHighRaw :=
  (foldl_processRawFlag d f flags acc).2.2.2.2

@[simp] lemma foldl_processValidationCheck_documents (d f : String)
    (checks : List VCheck) (acc : World × Nat) :
    (checks.foldl (processValidationCheck d f) acc).1.store.documents
      = acc.1.store.documents := (foldl_processValidationCheck d f checks acc).1

@[simp] lemma foldl_processValidationCheck_heartbeat (d f : String)
    (checks : List VCheck) (acc : World × Nat) :
    (checks.foldl (processValidationCheck d f) acc).1.store.heartbeat
      = acc.1.store.heartbeat := (foldl_processValidationCheck d f checks acc).2.1

@[simp] lemma foldl_processValidationCheck_pipelineResults (d f : String)
    (checks : List VCheck) (acc : World × Nat) :
    (checks.foldl (processValidationCheck d f) acc).1.store.pipelineResults
      = acc.1.store.pipelineResults :=
  (foldl_processValidationCheck d f checks acc).2.2.1

@[simp] lemma foldl_processValidationCheck_clock (d f : String)
    (checks : List VCheck) (acc : World × Nat) :
    (checks.foldl (processValidationCheck d f) acc).1.clock = acc.1.clock :=
  (foldl_processValidationCheck d f checks acc).2.2.2.1

@[simp] lemma foldl_processValidationCheck_count (d f : String)
    (checks : List VCheck) (acc : World × Nat) :
    (checks.foldl (processValidationCheck d f) acc).2
      = acc.2 + checks.countP (fun c => !c.passed) :=
  (foldl_processValidationCheck d f checks acc).2.2.2.2

/- ── Effect lemmas for the escalation block ─────────────────────────────── -/

@[simp] lemma escalate_flagsRaisedTotal (d f : String) (cnt : Nat) (w : World) :
    (escalate d f cnt w).store.heartbeat.flagsRaisedTotal
      = w.store.heartbeat.flagsRaisedTotal + cnt := by
  unfold escalate
  by_cases hc : cnt == 0
  · simp_all
  · simp [hc]

@[simp] lemma escalate_pipelineResults (d f : String) (cnt : Nat) (w : World) :
    (escalate d f cnt w).store.pipelineResults = w.store.pipelineResults := by
  unfold escalate
  by_cases hc : cnt == 0 <;> simp [hc]

@[simp] lemma escalate_safetyFlags (d f : String) (cnt : Nat) (w : World) :
    (escalate d f cnt w).store.safetyFlags = w.store.safetyFlags := by
  unfold escalate
  by_cases hc : cnt == 0 <;> simp [hc]

@[simp] lemma escalate_clock (d f : String) (cnt : Nat) (w : World) :
    (escalate d f cnt w).clock = w.clock := by
  unfold escalate
  by_cases hc : cnt == 0 <;> simp [hc]

lemma escalate_statuses (d f : String) (cnt : Nat) (w : World) :
    (escalate d f cnt w).store.documents.map (fun r => (r.id, r.status))
      = w.store.documents.map (fun r => (r.id, r.status)) := by
  unfold escalate
  by_cases hc : cnt == 0
  · simp [hc]
  · simp only [hc, if_neg, Bool.false_eq_true, not_false_iff, if_false,
      wlog_store_documents]
    unfold incrementCriticalFlags updateHeartbeat
    simp only [List.map_map]
    refine List.map_congr_left (fun r _ => ?_)
    by_cases hid : r.id = d <;> simp [hid]

lemma escalate_counts (d f : String) (cnt : Nat) (w : World) :
    (escalate d f cnt w).store.documents.map
        (fun r => (r.id, r.criticalFlagsCount))
      = w.store.documents.map (fun r =>
          (r.id, if r.id == d then r.criticalFlagsCount + cnt
                 else r.criticalFlagsCount)) := by
  unfold escalate
  by_cases hc : cnt == 0
  · simp only [hc, if_pos]
    refine (List.map_congr_left (fun r _ => ?_)).symm
    have : cnt = 0 := by simpa using hc
    subst this
    by_cases hid : r.id = d <;> simp [hid]
  · simp only [hc, Bool.false_eq_true, if_false, wlog_store_documents]
    unfold incrementCriticalFlags updateHeartbeat
    simp only [List.map_map]
    refine List.map_congr_left (fun r _ => ?_)
    by_cases hid : r.id = d <;> simp [hid]

/- ── Effect lemmas for _run_pipeline ────────────────────────────────────── -/

lemma runPipeline_std_error (env : PipelineEnv) (docId filename : String)
    (w : World) (ex : ExtOut) (msg : String) (hext : env.extraction = .ok ex)
    (hstd : env.standardization = .error msg) :
    (runPipeline env docId filename w).2 = some msg
    ∧ (runPipeline env docId filename w).1.store.documents = w.store.documents
    ∧ (runPipeline env docId filename w).1.store.safetyFlags = w.store.safetyFlags
    ∧ (runPipeline env docId filename w).1.store.heartbeat = w.store.heartbeat
    ∧ (runPipeline env docId filename w).1.store.pipelineResults
        = w.store.pipelineResults ++
          [{ documentId := docId, stage := "extraction", outputJson := ex.raw,
             confidence := some ex.confidence, timestamp := w.clock }]
    ∧ (runPipeline env docId filename w).1.clock = w.clock
    ∧ (runPipeline env docId filename w).1.alerts = w.alerts := by
  unfold runPipeline
  rw [hext, hstd]
  simp

lemma runPipeline_statuses (env : PipelineEnv) (docId filename : String)
    (w : World) :
    (runPipeline env docId filename w).1.store.documents.map
        (fun r => (r.id, r.status))
      = w.store.documents.map (fun r => (r.id, r.status))
    ∧ (runPipeline env docId filename w).1.clock = w.clock := by
  unfold runPipeline
  cases hext : env.extraction with
  | error e => simp
  | ok ext =>
    cases hstd : env.standardization with
    | error e => simp
    | ok std =>
      cases hf : env.fhir with
      | error e => simp
      | ok fb => simp [escalate_statuses]

lemma runPipeline_success (env : PipelineEnv) (docId filename : String)
    (w : World) (ex : ExtOut) (std : StdOut) (fb : String)
    (hext : env.extraction = .ok ex) (hstd : env.standardization = .ok std)
    (hfhir : env.fhir = .ok fb) :
    (runPipeline env docId filename w).2 = none
    ∧ (runPipeline env docId filename w).1.store.heartbeat.flagsRaisedTotal
        = w.store.heartbeat.flagsRaisedTotal +
            (std.safetyFlags.countP isHighRaw +
             env.validation.checks.countP (fun c => !c.passed))
    ∧ (runPipeline env docId filename w).1.store.documents.map
          (fun r => (r.id, r.criticalFlagsCount))
        = w.store.documents.map (fun r =>
            (r.id, if r.id == docId then
                r.criticalFlagsCount +
                  (std.safetyFlags.countP isHighRaw +
                   env.validation.checks.countP (fun c => !c.passed))
              else r.criticalFlagsCount)) := by
  unfold runPipeline
  rw [hext, hstd, hfhir]
  refine ⟨by simp, by simp, ?_⟩
  simp [escalate_counts]

/- ── Characterisation of the FIFO dequeue ───────────────────────────────── -/

lemma foldl_pickOlder_eq (l : List Document) :
    ∀ acc : Option Document, l.foldl pickOlder acc = firstOldest (acc.toList ++ l) := by
  induction l with
  | nil => intro acc; cases acc <;> rfl
  | cons d ds ih =>
    intro acc
    rw [List.foldl_cons, ih]
    cases acc with
    | none => rfl
    | some b =>
      cases hfd : firstOldest ds with
      | none =>
        by_cases hdb : d.uploadedAt < b.uploadedAt
        · simp [pickOlder, hdb, firstOldest, hfd]
        · simp [pickOlder, hdb, firstOldest, hfd]
      | some r =>
        by_cases hdb : d.uploadedAt < b.uploadedAt
        · by_cases hrd : r.uploadedAt < d.uploadedAt
          · have hrb : r.uploadedAt < b.uploadedAt := lt_trans hrd hdb
            simp [pickOlder, hdb, firstOldest, hfd, hrd, hrb]
          · simp [pickOlder, hdb, firstOldest, hfd, hrd]
        · by_cases hrd : r.uploadedAt < d.uploadedAt
          · simp [pickOlder, hdb, firstOldest, hfd, hrd]
          · have hrb : ¬ r.uploadedAt < b.uploadedAt := by omega
            simp [pickOlder, hdb, firstOldest, hfd, hrd, hrb]

lemma firstOldest_cons_none (a : Document) (t : List Document)
    (h : firstOldest t = none) : firstOldest (a :: t) = some a := by
  unfold firstOldest
  rw [h]

lemma firstOldest_cons_some (a : Document) (t : List Document) (r : Document)
    (h : firstOldest t = some r) :
    firstOldest (a :: t)
      = if r.uploadedAt < a.uploadedAt then some r else some a := by
  unfold firstOldest
  rw [h]

lemma firstOldest_cons_ne_none (a : Document) (t : List Document) :
    firstOldest (a :: t) ≠ none := by
  cases h : firstOldest t
  · simp [firstOldest_cons_none a t h]
  · rw [firstOldest_cons_some a t _ h]
    split <;> simp

lemma firstOldest_none_iff (l : List Document) : firstOldest l = none ↔ l = [] := by
  cases l with
  | nil => simp [firstOldest]
  | cons a t =>
    constructor
    · intro h; exact absurd h (firstOldest_cons_ne_none a t)
    · intro h; exact absurd h (List.cons_ne_nil a t)

lemma firstOldest_spec :
    ∀ (l : List Document) (d : Document), firstOldest l = some d →
    ∃ l1 l2, l = l1 ++ d :: l2 ∧ (∀ x ∈ l1, d.uploadedAt < x.uploadedAt)
      ∧ ∀ x ∈ l2, d.uploadedAt ≤ x.uploadedAt := by
  intro l
  induction l with
  | nil => intro d h; simp [firstOldest] at h
  | cons a ds ih =>
    intro d h
    cases hfd : firstOldest ds with
    | none =>
      have hds : ds = [] := (firstOldest_none_iff ds).1 hfd
      subst hds
      have hda : d = a := by
        have : some a = some d := by simpa [firstOldest] using h
        exact (Option.some_inj.1 this).symm
      subst hda
      exact ⟨[], [], by simp, by simp, by simp⟩
    | some r =>
      rw [firstOldest_cons_some a ds r hfd] at h
      by_cases hrd : r.uploadedAt < a.uploadedAt
      · rw [if_pos hrd] at h
        have hdr : r = d := Option.some_inj.1 h
        subst hdr
        obtain ⟨l1, l2, heq, h1, h2⟩ := ih r hfd
        exact ⟨a :: l1, l2, by simp [heq], by
          intro x hx
          rcases List.mem_cons.1 hx with hxa | hxl
          · exact hxa ▸ hrd
          · exact h1 x hxl, h2⟩
      · rw [if_neg hrd] at h
        have hda : a = d := Option.some_inj.1 h
        subst hda
        obtain ⟨l1, l2, heq, h1, h2⟩ := ih r hfd
        refine ⟨[], ds, by simp, by simp, ?_⟩
        intro x hx
        have har : a.uploadedAt ≤ r.uploadedAt := Nat.le_of_not_lt hrd
        rw [heq] at hx
        rcases List.mem_append.1 hx with hx1 | hx2
        · exact le_of_lt (lt_of_le_of_lt har (h1 x hx1))
        · rcases List.mem_cons.1 hx2 with hxr | hxl2
          · exact hxr ▸ har
          · exact le_trans har (h2 x hxl2)

lemma getNextPending_eq (s : StoreState) :
    getNextPending s
      = firstOldest (s.documents.filter (fun d => d.status == .pending)) := by
  unfold getNextPending
  rw [foldl_pickOlder_eq]
  rfl

lemma getNextPending_mem (s : StoreState) (d : Document)
    (h : getNextPending s = some d) : d ∈ s.documents ∧ d.status = .pending := by
  rw [getNextPending_eq] at h
  obtain ⟨l1, l2, heq, _, _⟩ := firstOldest_spec _ d h
  have hdmem : d ∈ s.documents.filter (fun x => x.status == .pending) := by
    rw [heq]; simp
  have hmem := List.mem_filter.1 hdmem
  exact ⟨hmem.1, by simpa using hmem.2⟩

/- ── Claim theorems ─────────────────────────────────────────────────────── -/

/-- C4: at startup, before the first poll tick runs, every document whose
    status is processing is reset to pending; the recovery operation returns
    the number of documents reset; no document in any other status is
    changed (the map is the identity on them), and nothing else in the
    store is touched.  (run_agent_loop calls recover_stalled_documents in
    its prologue, before the polling loop — mirrored by runAgentLoop
    folding ticks over agentStartup; after the prologue no document is in
    processing.) -/
theorem C4_startup_recovery (s : StoreState) (w : World) :
    (recoverStalledDocuments s).2.documents
        = s.documents.map (fun d =>
            if d.status == .processing then { d with status := .pending } else d)
    ∧ (recoverStalledDocuments s).1
        = s.documents.countP (fun d => d.status == .processing)
    ∧ (recoverStalledDocuments s).2.pipelineResults = s.pipelineResults
    ∧ (recoverStalledDocuments s).2.safetyFlags = s.safetyFlags
    ∧ (recoverStalledDocuments s).2.heartbeat = s.heartbeat
    ∧ processingCount (agentStartup w).store = 0 := by
  refine ⟨rfl, rfl, rfl, rfl, rfl, ?_⟩
  have hdocs : (agentStartup w).store.documents
      = (recoverStalledDocuments w.store).2.documents := by
    simp [agentStartup, apply_ite (fun x : World => x.store.documents)]
  unfold processingCount
  rw [hdocs]
  unfold recoverStalledDocuments
  rw [List.countP_eq_zero]
  intro a ha
  obtain ⟨b, hb, hab⟩ := List.mem_map.1 ha
  by_cases hbp : b.status == .processing
  · rw [if_pos hbp] at hab; subst hab; simp
  · rw [if_neg hbp] at hab; subst hab; simpa using hbp

/-- C7: resolving an existing flag id succeeds and sets resolved on that
    flag; resolving it again succeeds again and leaves the store unchanged
    (idempotent no-op success); an unknown flag id yields the not-found
    outcome and changes no state. -/
theorem C7_resolve_flag_idempotent (s : StoreState) (fid : Nat) :
    ((s.safetyFlags.any (fun f => f.id == fid)) = true →
      (resolveAlert s fid).1 = .resolved fid
      ∧ (∀ f ∈ (resolveAlert s fid).2.safetyFlags, f.id = fid → f.resolved = true)
      ∧ (resolveAlert (resolveAlert s fid).2 fid).1 = .resolved fid
      ∧ (resolveAlert (resolveAlert s fid).2 fid).2 = (resolveAlert s fid).2)
    ∧ ((∀ f ∈ s.safetyFlags, f.id ≠ fid) →
      (resolveAlert s fid).1 = .notFound fid ∧ (resolveAlert s fid).2 = s) := by
  have hof : ∀ (t : StoreState), (t.safetyFlags.any (fun f => f.id == fid)) = true →
      resolveAlert t fid = (.resolved fid,
        { t with safetyFlags := t.safetyFlags.map (resolveMark fid) }) := by
    intro t ht
    unfold resolveAlert resolveSafetyFlag
    simp [ht]
  constructor
  · intro h
    have hstep1 := hof s h
    have hany2 : ((s.safetyFlags.map (resolveMark fid)).any
        (fun f => f.id == fid)) = true := by
      obtain ⟨f, hf, hfid⟩ := List.any_eq_true.1 h
      refine List.any_eq_true.2 ⟨resolveMark fid f, List.mem_map.2 ⟨f, hf, rfl⟩, ?_⟩
      unfold resolveMark
      rw [if_pos hfid]
      exact hfid
    have hstep2 := hof { s with safetyFlags := s.safetyFlags.map (resolveMark fid) }
      hany2
    refine ⟨by rw [hstep1], ?_, ?_, ?_⟩
    · intro f hf hfid
      rw [hstep1] at hf
      simp only at hf
      obtain ⟨b, hb, hab⟩ := List.mem_map.1 hf
      unfold resolveMark at hab
      by_cases hbid : b.id = fid
      · rw [if_pos (by simpa using hbid)] at hab
        subst hab; rfl
      · rw [if_neg (by simpa using hbid)] at hab
        subst hab; exact absurd hfid hbid
    · rw [hstep1]
      simp only
      rw [hstep2]
    · rw [hstep1]
      simp only
      rw [hstep2]
      simp only [List.map_map]
      congr 1
      refine List.map_congr_left (fun f _ => ?_)
      show resolveMark fid (resolveMark fid f) = resolveMark fid f
      unfold resolveMark
      by_cases hfid : f.id = fid
      · simp [hfid]
      · simp [hfid]
  · intro h
    have hany : (s.safetyFlags.any (fun f => f.id == fid)) = false := by
      rw [List.any_eq_false]
      intro f hf
      simpa using h f hf
    have hmap : s.safetyFlags.map (resolveMark fid) = s.safetyFlags := by
      refine (List.map_congr_left (fun f hf => ?_)).trans (List.map_id _)
      unfold resolveMark
      simp [h f hf]
    have hstep : resolveAlert s fid = (.notFound fid,
        { s with safetyFlags := s.safetyFlags.map (resolveMark fid) }) := by
      unfold resolveAlert resolveSafetyFlag
      simp [hany]
    constructor
    · rw [hstep]
    · rw [hstep]
      simp only
      rw [hmap]

/-- C7 witness: in a store with one flag of id 1, resolving id 1 twice
    succeeds both times and is idempotent; resolving unknown id 7 is
    not-found with no state change. -/
theorem C7_witness :
    (resolveAlert c7store 1).1 = .resolved 1
    ∧ (resolveAlert (resolveAlert c7store 1).2 1).1 = .resolved 1
    ∧ (resolveAlert (resolveAlert c7store 1).2 1).2 = (resolveAlert c7store 1).2
    ∧ (resolveAlert c7store 7).1 = .notFound 7
    ∧ (resolveAlert c7store 7).2 = c7store := by
  have h1 := (C7_resolve_flag_idempotent c7store 1).1 (by decide)
  have h2 := (C7_resolve_flag_idempotent c7store 7).2 (by decide)
  exact ⟨h1.1, h1.2.2.1, h1.2.2.2, h2.1, h2.2⟩

/-- C9: a standardization-reported safety flag whose severity (default
    LOW) is anything other than exactly HIGH — including CRITICAL, MEDIUM
    and LOW — is silently dropped: the escalation loop body leaves the
    whole world (no flag row, no alert, no log entry) and the critical
    counter unchanged. -/
theorem C9_non_high_std_flag_dropped (docId filename : String) (w : World)
    (cnt : Nat) (flag : RawFlag) (h : flag.severity.getD "LOW" ≠ "HIGH") :
    processRawFlag docId filename (w, cnt) flag = (w, cnt) := by
  unfold processRawFlag
  simp [h]

/-- C9 witness: a CRITICAL-severity standardization flag is dropped
    entirely. -/
theorem C9_witness :
    processRawFlag "A" "a.png" (c9w, 0)
      { severity := some "CRITICAL", category := some "DATE_ANOMALY",
        description := some "impossible dates" } = (c9w, 0) :=
  C9_non_high_std_flag_dropped "A" "a.png" c9w 0 _ (by decide)

/-- C10: whenever the extraction matches the built-in demo-chart detector,
    the Dose Consistency check fails with the fixed hard-coded
    dose-variance detail string, for every extraction and standardized
    document — regardless of the actual dose values. -/
theorem C10_demo_chart_pins_dose_check (e : Extraction) (std : StandardizedDoc)
    (h : isDemoChart e = true) :
    checkDoseConsistency e std =
      { name := "Dose Consistency", passed := false,
        detail := "Dose variance detected: " ++ demoDoseFinding } := by
  unfold checkDoseConsistency
  rw [h]
  simp

/-- C10 witness: an extraction whose hospital name contains
    "delta hospital", with identical 90 mg doses in both cycles, still
    fails Dose Consistency with the pinned demo finding. -/
theorem C10_witness :
    isDemoChart c10e = true
    ∧ (c10e.cycles.map (fun c => c.drugs.filterMap parseDoseMg)).flatten = [90, 90]
    ∧ checkDoseConsistency c10e c10std
        = { name := "Dose Consistency", passed := false,
            detail := "Dose variance detected: " ++ demoDoseFinding } :=
  ⟨by decide, by decide, C10_demo_chart_pins_dose_check c10e c10std (by decide)⟩

/-- C3: every failed validation check is recorded as a SafetyFlag whose
    severity and flag_type follow exactly the fixed mapping
    (Dose Consistency → HIGH/DOSE_VARIANCE, PII De-identification →
    HIGH/PII_LEAK, Drug Name Standardization → MEDIUM/AMBIGUOUS_NAME,
    ICD-10 Code Validity → MEDIUM/CODING_ERROR, FHIR R4 Schema →
    LOW/SCHEMA_ERROR, anything else → MEDIUM/OTHER), and an outbound alert
    is dispatched for that flag if and only if the mapped severity is HIGH
    or CRITICAL. -/
theorem C3_flag_classification (docId filename : String) (w : World) (cnt : Nat)
    (check : VCheck) (h : check.passed = false) :
    (processValidationCheck docId filename (w, cnt) check).1.store.safetyFlags
        = w.store.safetyFlags ++
          [{ id := w.store.nextFlagId, documentId := docId,
             flagType := checkNameToType check.name,
             severity := classifyCheckSeverity check.name,
             details := check.detail, resolved := false, timestamp := w.clock }]
    ∧ (processValidationCheck docId filename (w, cnt) check).1.alerts
        = w.alerts ++
          (if classifyCheckSeverity check.name == "HIGH"
              || classifyCheckSeverity check.name == "CRITICAL" then
            [{ documentId := docId, filename := filename,
               flagId := w.store.nextFlagId,
               flagType := checkNameToType check.name,
               severity := classifyCheckSeverity check.name,
               details := check.detail, timestamp := w.clock }]
           else [])
    ∧ classifyCheckSeverity "Dose Consistency" = "HIGH"
    ∧ classifyCheckSeverity "PII De-identification" = "HIGH"
    ∧ classifyCheckSeverity "Drug Name Standardization" = "MEDIUM"
    ∧ classifyCheckSeverity "ICD-10 Code Validity" = "MEDIUM"
    ∧ classifyCheckSeverity "FHIR R4 Schema" = "LOW"
    ∧ checkNameToType "Dose Consistency" = "DOSE_VARIANCE"
    ∧ checkNameToType "PII De-identification" = "PII_LEAK"
    ∧ checkNameToType "Drug Name Standardization" = "AMBIGUOUS_NAME"
    ∧ checkNameToType "ICD-10 Code Validity" = "CODING_ERROR"
    ∧ checkNameToType "FHIR R4 Schema" = "SCHEMA_ERROR"
    ∧ (check.name ∉ ["Dose Consistency", "PII De-identification",
          "Drug Name Standardization", "ICD-10 Code Validity",
          "FHIR R4 Schema"] →
        classifyCheckSeverity check.name = "MEDIUM"
        ∧ checkNameToType check.name = "OTHER") := by
  refine ⟨?_, ?_, rfl, rfl, rfl, rfl, rfl, rfl, rfl, rfl, rfl, rfl, ?_⟩
  · unfold processValidationCheck
    simp [h, apply_ite (fun x : World => x.store.safetyFlags)]
  · unfold processValidationCheck
    by_cases hs : (classifyCheckSeverity check.name == "HIGH"
        || classifyCheckSeverity check.name == "CRITICAL") = true
    · simp [h, hs]
    · simp only [Bool.not_eq_true] at hs
      simp [h, hs]
  · intro hnot
    simp only [List.mem_cons, List.mem_singleton, not_or] at hnot
    obtain ⟨h1, h2, h3, h4, h5, _⟩ := hnot
    unfold classifyCheckSeverity checkNameToType
    simp [h1, h2, h3, h4, h5]

/-- C3 witness: a failed Dose Consistency check (HIGH) dispatches exactly
    one alert; a failed FHIR R4 Schema check (LOW) records a flag but
    dispatches none. -/
theorem C3_witness :
    (processValidationCheck "A" "a.png" (c3w, 0)
        { name := "Dose Consistency", passed := false,
          detail := "variance" }).1.alerts
      = [{ documentId := "A", filename := "a.png", flagId := 1,
           flagType := "DOSE_VARIANCE", severity := "HIGH",
           details := "variance", timestamp := 4 }]
    ∧ (processValidationCheck "A" "a.png" (c3w, 0)
        { name := "FHIR R4 Schema", passed := false,
          detail := "missing id" }).1.alerts = []
    ∧ (processValidationCheck "A" "a.png" (c3w, 0)
        { name := "FHIR R4 Schema", passed := false,
          detail := "missing id" }).1.store.safetyFlags
      = [{ id := 1, documentId := "A", flagType := "SCHEMA_ERROR",
           severity := "LOW", details := "missing id", resolved := false,
           timestamp := 4 }] := by
  have h1 := C3_flag_classification "A" "a.png" c3w 0
    { name := "Dose Consistency", passed := false, detail := "variance" } rfl
  have h2 := C3_flag_classification "A" "a.png" c3w 0
    { name := "FHIR R4 Schema", passed := false, detail := "missing id" } rfl
  refine ⟨?_, ?_, ?_⟩
  · rw [h1.2.1]; decide
  · rw [h2.2.1]; decide
  · rw [h2.1]; decide

/-- C6: the dequeue returns none exactly when no pending document exists;
    when it returns a document, that document is a pending row whose
    uploadedAt is minimal among pending rows (FIFO), and every pending row
    inserted before it has strictly larger uploadedAt — so ties on
    uploadedAt are broken by insertion (rowid) order. -/
theorem C6_fifo_dequeue (s : StoreState) :
    (getNextPending s = none ↔ ∀ d ∈ s.documents, d.status ≠ .pending)
    ∧ ∀ d, getNextPending s = some d →
        d ∈ s.documents ∧ d.status = .pending
        ∧ ∃ l1 l2,
            s.documents.filter (fun x => x.status == .pending) = l1 ++ d :: l2
            ∧ (∀ x ∈ l1, d.uploadedAt < x.uploadedAt)
            ∧ (∀ x ∈ l2, d.uploadedAt ≤ x.uploadedAt) := by
  constructor
  · rw [getNextPending_eq, firstOldest_none_iff, List.filter_eq_nil_iff]
    constructor
    · intro hf d hd hp
      exact hf d hd (by simp [hp])
    · intro hall d hd
      simpa using hall d hd
  · intro d hd
    refine ⟨(getNextPending_mem s d hd).1, (getNextPending_mem s d hd).2, ?_⟩
    rw [getNextPending_eq] at hd
    exact firstOldest_spec _ d hd

/-- C6 witness: with pending X and Y both uploaded at 5 (X inserted first)
    and Z uploaded at 7, the dequeue returns X, and the characterisation
    instantiates at X. -/
theorem C6_witness :
    getNextPending c6store = some c6X
    ∧ c6X.status = .pending
    ∧ ∃ l1 l2,
        c6store.documents.filter (fun x => x.status == .pending) = l1 ++ c6X :: l2
        ∧ (∀ x ∈ l1, c6X.uploadedAt < x.uploadedAt)
        ∧ (∀ x ∈ l2, c6X.uploadedAt ≤ x.uploadedAt) := by
  have h := (C6_fifo_dequeue c6store).2 c6X (by decide)
  exact ⟨by decide, h.2.1, h.2.2⟩

/- ── The log prune keeps exactly the most recent 500 rows ───────────────── -/

lemma pruneKeep_of_sorted :
    ∀ l : List LogEntry, l.Pairwise (fun a b => a.id < b.id) →
      pruneKeep l = l.drop (l.length - 500) := by
  intro l
  induction l with
  | nil => intro _; rfl
  | cons a t ih =>
    intro hp
    rw [List.pairwise_cons] at hp
    obtain ⟨hlt, hpt⟩ := hp
    unfold pruneKeep
    rw [List.filter_cons]
    have hcount_a : (a :: t).countP (fun e2 => a.id < e2.id) = t.length := by
      rw [List.countP_cons]
      have hall : t.countP (fun e2 => a.id < e2.id) = t.length :=
        List.countP_eq_length.2 (fun x hx => by simpa using hlt x hx)
      simp [hall]
    have hcount_t : ∀ e ∈ t, (a :: t).countP (fun e2 => e.id < e2.id)
        = t.countP (fun e2 => e.id < e2.id) := by
      intro e he
      rw [List.countP_cons]
      have hna : ¬ e.id < a.id := by
        have := hlt e he
        omega
      simp [hna]
    have hft : t.filter
          (fun e => decide ((a :: t).countP (fun e2 => e.id < e2.id) < 500))
        = pruneKeep t := by
      unfold pruneKeep
      exact List.filter_congr (fun e he => by rw [hcount_t e he])
    by_cases hlen : t.length < 500
    · have hpa : (decide ((a :: t).countP (fun e2 => a.id < e2.id) < 500))
          = true := by
        rw [decide_eq_true_iff, hcount_a]
        exact hlen
      rw [if_pos hpa, hft, ih hpt]
      have h0 : t.length - 500 = 0 := by omega
      have h1 : (a :: t).length - 500 = 0 := by
        rw [List.length_cons]
        omega
      rw [h0, h1]
      rfl
    · have hpa : (decide ((a :: t).countP (fun e2 => a.id < e2.id) < 500))
          = false := by
        rw [decide_eq_false_iff_not, hcount_a]
        exact hlen
      have hna : ¬ (decide ((a :: t).countP (fun e2 => a.id < e2.id) < 500)
          = true) := by
        rw [hpa]
        simp
      rw [if_neg hna, hft, ih hpt]
      have h1 : (a :: t).length - 500 = (t.length - 500) + 1 := by
        rw [List.length_cons]
        omega
      rw [h1, List.drop_succ_cons]

/-- The agentLog field written by writeLog, as a plain equation. -/
lemma writeLog_agentLog (s : StoreState) (event message : String)
    (documentId stage : Option String) (level : String) (now : Nat) :
    (writeLog s event message documentId stage level now).agentLog
      = pruneKeep (s.agentLog ++
          [{ id := s.nextLogId, event := event, message := message,
             documentId := documentId, stage := stage, level := level,
             timestamp := now }]) := rfl

/-- C8: appending a log entry (the INSERT plus the prune DELETE run in one
    transaction, so the pair is a single atomic step of the model) leaves
    the activity log with at most 500 entries, and those entries are
    exactly the most recent ones — the suffix of the appended list — and
    the id-ordering invariant is preserved. -/
theorem C8_log_bounded_recent (s : StoreState) (event message : String)
    (documentId stage : Option String) (level : String) (now : Nat)
    (h : LogOk s) :
    (writeLog s event message documentId stage level now).agentLog.length ≤ 500
    ∧ (writeLog s event message documentId stage level now).agentLog
        = (s.agentLog ++
            [({ id := s.nextLogId, event := event, message := message,
                documentId := documentId, stage := stage, level := level,
                timestamp := now } : LogEntry)]).drop (s.agentLog.length + 1 - 500)
    ∧ LogOk (writeLog s event message documentId stage level now) := by
  obtain ⟨hpw, hid⟩ := h
  have hpw' : (s.agentLog ++
      [({ id := s.nextLogId, event := event, message := message,
          documentId := documentId, stage := stage, level := level,
          timestamp := now } : LogEntry)]).Pairwise (fun a b => a.id < b.id) := by
    rw [List.pairwise_append]
    refine ⟨hpw, List.pairwise_singleton _ _, ?_⟩
    intro a ha b hb
    rw [List.mem_singleton] at hb
    subst hb
    exact hid a ha
  have hdrop := pruneKeep_of_sorted _ hpw'
  have hlen : (s.agentLog ++
      [({ id := s.nextLogId, event := event, message := message,
          documentId := documentId, stage := stage, level := level,
          timestamp := now } : LogEntry)]).length = s.agentLog.length + 1 := by simp
  have heq : (writeLog s event message documentId stage level now).agentLog
      = (s.agentLog ++
          [({ id := s.nextLogId, event := event, message := message,
              documentId := documentId, stage := stage, level := level,
              timestamp := now } : LogEntry)]).drop (s.agentLog.length + 1 - 500) := by
    rw [writeLog_agentLog, hdrop, hlen]
  refine ⟨?_, heq, ?_, ?_⟩
  · rw [heq, List.length_drop, hlen]
    omega
  · rw [heq]
    exact List.Pairwise.sublist (List.drop_sublist _ _) hpw'
  · intro e he
    rw [heq] at he
    have hmem := List.mem_of_mem_drop he
    rcases List.mem_append.1 hmem with hin | hnew
    · have := hid e hin
      show e.id < s.nextLogId + 1
      omega
    · rw [List.mem_singleton] at hnew
      subst hnew
      show s.nextLogId < s.nextLogId + 1
      omega

/-- C8 witness: appending to a one-entry log yields the two entries, within
    the 500 bound. -/
theorem C8_witness :
    (writeLog c8store "idle" "Queue empty" none none "info" 9).agentLog.length ≤ 500
    ∧ (writeLog c8store "idle" "Queue empty" none none "info" 9).agentLog
        = (c8store.agentLog ++
            [({ id := 2, event := "idle", message := "Queue empty",
                documentId := none, stage := none, level := "info",
                timestamp := 9 } : LogEntry)]).drop
            (c8store.agentLog.length + 1 - 500) := by
  have h := C8_log_bounded_recent c8store "idle" "Queue empty" none none "info" 9
    ⟨by decide, by decide⟩
  exact ⟨h.1, h.2.1⟩

/- ── Effect lemmas for _tick ────────────────────────────────────────────── -/

lemma tickDequeue_none (w : World) (hq : getNextPending w.store = none) :
    (tickDequeue w).2 = none
    ∧ (tickDequeue w).1.store.documents = w.store.documents
    ∧ (tickDequeue w).1.clock = w.clock := by
  have hq' : getNextPending (updateHeartbeat w.store 0 0 w.clock) = none := hq
  unfold tickDequeue
  simp only [hq']
  simp

lemma tickDequeue_some (w : World) (row : Document)
    (hq : getNextPending w.store = some row) :
    (tickDequeue w).2 = some row
    ∧ (tickDequeue w).1.store.documents
        = w.store.documents.map (fun d =>
            if d.id == row.id then { d with status := .processing } else d)
    ∧ (tickDequeue w).1.clock = w.clock
    ∧ (tickDequeue w).1.store.heartbeat.flagsRaisedTotal
        = w.store.heartbeat.flagsRaisedTotal
    ∧ (tickDequeue w).1.store.pipelineResults = w.store.pipelineResults
    ∧ (tickDequeue w).1.store.safetyFlags = w.store.safetyFlags
    ∧ (tickDequeue w).1.alerts = w.alerts := by
  have hq' : getNextPending (updateHeartbeat w.store 0 0 w.clock) = some row := hq
  unfold tickDequeue
  simp only [hq']
  simp [setDocumentStatus]

lemma tick_eq_of_dequeue_none (env : PipelineEnv) (w : World)
    (h2 : (tickDequeue w).2 = none) : tick env w = (tickDequeue w).1 := by
  unfold tick
  simp only [h2]

lemma tick_eq_of_dequeue_some (env : PipelineEnv) (w : World) (row : Document)
    (h2 : (tickDequeue w).2 = some row) :
    tick env w = tickProcess env (tickDequeue w).1 row := by
  unfold tick
  simp only [h2]

lemma setDocumentStatus_counts (s : StoreState) (docId : String) (st : DocStatus)
    (e : Option String) (n : Nat) :
    (setDocumentStatus s docId st e n).documents.map
        (fun d => (d.id, d.criticalFlagsCount))
      = s.documents.map (fun d => (d.id, d.criticalFlagsCount)) := by
  unfold setDocumentStatus
  rw [List.map_map]
  refine List.map_congr_left (fun d _ => ?_)
  by_cases hid : d.id = docId
  · simp only [Function.comp_apply, hid]
    cases st <;> simp
  · simp [hid]

lemma processingCount_eq_zero_after_end (s : StoreState) (docId : String)
    (st : DocStatus) (e : Option String) (n : Nat)
    (hst : st = .complete ∨ st = .failed)
    (hall : ∀ d ∈ s.documents, d.id ≠ docId → d.status ≠ .processing) :
    processingCount (setDocumentStatus s docId st e n) = 0 := by
  unfold processingCount setDocumentStatus
  rw [List.countP_eq_zero]
  intro a ha
  obtain ⟨b, hb, hab⟩ := List.mem_map.1 ha
  by_cases hbid : b.id = docId
  · rw [if_pos (by simpa using hbid)] at hab
    subst hab
    rcases hst with h | h <;> subst h <;> simp
  · rw [if_neg (by simpa using hbid)] at hab
    subst hab
    simpa using hall b hb hbid

lemma all_id_status_of_pairs_eq (l1 l2 : List Document)
    (hpairs : l1.map (fun d => (d.id, d.status))
        = l2.map (fun d => (d.id, d.status)))
    (P : String → DocStatus → Prop)
    (h : ∀ d ∈ l2, P d.id d.status) : ∀ d ∈ l1, P d.id d.status := by
  intro d hd
  have hmem : (d.id, d.status) ∈ l1.map (fun d => (d.id, d.status)) :=
    List.mem_map.2 ⟨d, hd, rfl⟩
  rw [hpairs] at hmem
  obtain ⟨b, hb, hba⟩ := List.mem_map.1 hmem
  have h1 : b.id = d.id := congrArg Prod.fst hba
  have h2 : b.status = d.status := congrArg Prod.snd hba
  rw [← h1, ← h2]
  exact h b hb

lemma processingCount_documents (s s' : StoreState)
    (h : s.documents = s'.documents) : processingCount s = processingCount s' := by
  unfold processingCount
  rw [h]

lemma tickProcess_processingCount (env : PipelineEnv) (w : World) (row : Document)
    (hall : ∀ d ∈ w.store.documents, d.id ≠ row.id → d.status ≠ .processing) :
    processingCount (tickProcess env w row).store = 0 := by
  have hpairs := (runPipeline_statuses env row.id row.filename w).1
  have hpipeall := all_id_status_of_pairs_eq _ _ hpairs
    (fun i st => i ≠ row.id → st ≠ .processing) hall
  unfold tickProcess
  cases herr : (runPipeline env row.id row.filename w).2 with
  | none =>
    simp only [herr]
    refine (processingCount_documents _
        (setDocumentStatus (runPipeline env row.id row.filename w).1.store row.id
          .complete none (runPipeline env row.id row.filename w).1.clock)
        (by simp)).trans
      (processingCount_eq_zero_after_end _ _ _ _ _ (Or.inl rfl) hpipeall)
  | some e =>
    simp only [herr]
    refine (processingCount_documents _
        (setDocumentStatus (runPipeline env row.id row.filename w).1.store row.id
          .failed (some e) (runPipeline env row.id row.filename w).1.clock)
        (by simp)).trans
      (processingCount_eq_zero_after_end _ _ _ _ _ (Or.inr rfl) hpipeall)

/-- C1 counterexample: the dequeue is a plain SELECT with no accompanying
    write, so it is not a single-flight claim.  With one pending document A,
    the interleaving read1-read2-claim1-claim2 of a timer tick and a
    process-now tick makes both threads claim the same document A; with two
    pending documents A and B, the interleaving read1-claim1-read2-claim2
    leaves two documents in status processing at the same instant. -/
theorem C1_counterexample :
    ((runSched [true, false, true, false]
        { t1 := threadInit, t2 := threadInit, store := c1store1 }).t1.claimed
        = some docA
      ∧ (runSched [true, false, true, false]
        { t1 := threadInit, t2 := threadInit, store := c1store1 }).t2.claimed
        = some docA)
    ∧ processingCount (runSched [true, true, false, false]
        { t1 := threadInit, t2 := threadInit, store := c1store2 }).store = 2 := by
  decide

/-- C1 amended: the code's get_next_pending is a read-only query, not an
    atomic claim, so overlapping ticks can claim the same document twice
    and can put two documents into processing simultaneously (see the
    counterexample).  What does hold: when ticks are serialized
    (non-overlapping), starting from a store with unique document ids and
    no processing document, at most one document — the claimed one — is in
    processing at the mid-tick instant after the claim, and no document is
    left processing when the tick ends. -/
theorem C1_amended_serialized_ticks (env : PipelineEnv) (w : World)
    (hids : (w.store.documents.map (fun d => d.id)).Nodup)
    (h0 : processingCount w.store = 0) :
    processingCount (tickDequeue w).1.store ≤ 1
    ∧ processingCount (tick env w).store = 0 := by
  have hall : ∀ d ∈ w.store.documents, ¬ (d.status == DocStatus.processing) = true :=
    List.countP_eq_zero.1 h0
  cases hq : getNextPending w.store with
  | none =>
    obtain ⟨h2, hdocs, _⟩ := tickDequeue_none w hq
    constructor
    · rw [processingCount_documents (tickDequeue w).1.store w.store hdocs, h0]
      omega
    · rw [tick_eq_of_dequeue_none env w h2]
      rw [processingCount_documents (tickDequeue w).1.store w.store hdocs, h0]
  | some row =>
    obtain ⟨h2, hdocs, hclk, _, _, _, _⟩ := tickDequeue_some w row hq
    have hrow := getNextPending_mem w.store row hq
    have hcnt1 : processingCount (tickDequeue w).1.store = 1 := by
      unfold processingCount
      rw [hdocs, List.countP_map]
      have hpoint : ∀ d ∈ w.store.documents,
          (((if d.id == row.id then { d with status := DocStatus.processing }
              else d).status == DocStatus.processing)) = (d.id == row.id) := by
        intro d hd
        by_cases hid : d.id = row.id
        · simp [hid]
        · have hfalse : (d.status == DocStatus.processing) = false :=
            Bool.eq_false_iff.2 (hall d hd)
          simp [hid, hfalse]
      have hpoint2 : ∀ x ∈ w.store.documents,
          ((fun d => d.status == DocStatus.processing) ∘ fun d =>
            if d.id == row.id then { d with status := DocStatus.processing }
            else d) x = true ↔ (fun d => d.id == row.id) x = true := by
        intro x hx
        rw [Function.comp_apply, hpoint x hx]
      rw [List.countP_congr hpoint2]
      have hcountmap : w.store.documents.countP (fun d => d.id == row.id)
          = (w.store.documents.map (fun d => d.id)).count row.id := by
        rw [List.count_eq_countP, List.countP_map]
        rfl
      rw [hcountmap]
      exact List.count_eq_one_of_mem hids
        (List.mem_map.2 ⟨row, hrow.1, rfl⟩)
    constructor
    · omega
    · rw [tick_eq_of_dequeue_some env w row h2]
      refine tickProcess_processingCount env (tickDequeue w).1 row ?_
      intro d hd hne
      rw [hdocs] at hd
      obtain ⟨b, hb, hab⟩ := List.mem_map.1 hd
      by_cases hbid : b.id = row.id
      · rw [if_pos (by simpa using hbid)] at hab
        subst hab
        exact absurd hbid hne
      · rw [if_neg (by simpa using hbid)] at hab
        subst hab
        intro hcon
        exact hall b hb (by simp [hcon])

/-- C1 amended witness: one benign serialized tick over the one-pending-doc
    store claims at most one document and leaves none processing. -/
theorem C1_witness :
    processingCount (tickDequeue w1).1.store ≤ 1
    ∧ processingCount (tick envAllPass w1).store = 0 :=
  C1_amended_serialized_ticks envAllPass w1 (by decide) (by decide)

/-- C2 counterexample: a tick whose only recorded flag is a MEDIUM
    validator failure (failed ICD-10 check, no standardization flags, no
    alert dispensed) still increments both the document's
    critical_flags_count and the heartbeat's flags_raised_total from 0 to
    1 — the code counts every failed validation check, not only
    HIGH/CRITICAL ones. -/
theorem C2_counterexample :
    (tick envMedium w1).store.heartbeat.flagsRaisedTotal = 1
    ∧ w1.store.heartbeat.flagsRaisedTotal = 0
    ∧ (tick envMedium w1).store.documents.map (fun d => d.criticalFlagsCount) = [1]
    ∧ w1.store.documents.map (fun d => d.criticalFlagsCount) = [0]
    ∧ (tick envMedium w1).store.safetyFlags.map (fun f => f.severity) = ["MEDIUM"]
    ∧ (tick envMedium w1).alerts = [] := by
  decide

/-- C2 amended: on a successful tick, the document's critical_flags_count
    and the heartbeat's flags_raised_total are incremented exactly by
    (number of standardization flags with severity exactly HIGH) +
    (number of failed validation checks of any severity); other documents'
    counters are unchanged. -/
theorem C2_amended_counters (env : PipelineEnv) (w : World) (row : Document)
    (ex : ExtOut) (std : StdOut) (fb : String)
    (hq : getNextPending w.store = some row)
    (hext : env.extraction = .ok ex) (hstd : env.standardization = .ok std)
    (hfhir : env.fhir = .ok fb) :
    (tick env w).store.heartbeat.flagsRaisedTotal
      = w.store.heartbeat.flagsRaisedTotal +
          (std.safetyFlags.countP isHighRaw +
           env.validation.checks.countP (fun c => !c.passed))
    ∧ (tick env w).store.documents.map (fun r => (r.id, r.criticalFlagsCount))
      = w.store.documents.map (fun r =>
          (r.id, if r.id == row.id then
              r.criticalFlagsCount +
                (std.safetyFlags.countP isHighRaw +
                 env.validation.checks.countP (fun c => !c.passed))
            else r.criticalFlagsCount)) := by
  obtain ⟨h2, hdocs, hclk, hhb, _, _, _⟩ := tickDequeue_some w row hq
  have hsucc := runPipeline_success env row.id row.filename (tickDequeue w).1
    ex std fb hext hstd hfhir
  rw [tick_eq_of_dequeue_some env w row h2]
  unfold tickProcess
  simp only [hsucc.1]
  constructor
  · simp only [wlog_store_heartbeat, updateHeartbeat_flagsRaisedTotal,
      setDocumentStatus_heartbeat, Nat.add_zero]
    rw [hsucc.2.1, hhb]
  · simp only [wlog_store_documents, updateHeartbeat_documents]
    rw [setDocumentStatus_counts, hsucc.2.2, hdocs, List.map_map]
    refine List.map_congr_left (fun d _ => ?_)
    by_cases hid : d.id = row.id
    · simp [hid]
    · simp [hid]

/-- C2 amended witness: the MEDIUM-only tick increments the heartbeat flag
    total by exactly 0 + 1 (no HIGH standardization flags, one failed
    check). -/
theorem C2_witness :
    (tick envMedium w1).store.heartbeat.flagsRaisedTotal
      = w1.store.heartbeat.flagsRaisedTotal +
          ((({ raw := "std", safetyFlags := [] } : StdOut).safetyFlags.countP
              isHighRaw)
           + envMedium.validation.checks.countP (fun c => !c.passed)) :=
  (C2_amended_counters envMedium w1 docA { raw := "ext", confidence := 1 }
    { raw := "std", safetyFlags := [] } "fhir" (by decide) rfl rfl rfl).1

/-- C5: when the standardization stage throws, the tick (which is a total
    function — the loop does not crash) ends the dequeued document in
    status failed with the thrown message captured in error_message, adds
    no StageResult rows for the fhir or validation stages, records no
    safety flags, leaves every document's critical_flags_count unchanged,
    and leaves the document non-pending — so later dequeues do not
    automatically retry it. -/
theorem C5_std_throw_fails_document (env : PipelineEnv) (w : World)
    (row : Document) (ex : ExtOut) (msg : String)
    (hq : getNextPending w.store = some row)
    (hext : env.extraction = .ok ex)
    (hstd : env.standardization = .error msg) :
    (∀ r ∈ (tick env w).store.documents, r.id = row.id →
        r.status = .failed ∧ r.errorMessage = some msg ∧ r.status ≠ .pending)
    ∧ (tick env w).store.documents.map (fun r => (r.id, r.criticalFlagsCount))
        = w.store.documents.map (fun r => (r.id, r.criticalFlagsCount))
    ∧ (tick env w).store.pipelineResults.filter
          (fun pr => pr.documentId == row.id
            && (pr.stage == "fhir" || pr.stage == "validation"))
        = w.store.pipelineResults.filter
          (fun pr => pr.documentId == row.id
            && (pr.stage == "fhir" || pr.stage == "validation"))
    ∧ (tick env w).store.safetyFlags = w.store.safetyFlags := by
  obtain ⟨h2, hdocs, hclk, hhb, hpr, hsf, hal⟩ := tickDequeue_some w row hq
  have herr := runPipeline_std_error env row.id row.filename (tickDequeue w).1
    ex msg hext hstd
  rw [tick_eq_of_dequeue_some env w row h2]
  unfold tickProcess
  simp only [herr.1]
  refine ⟨?_, ?_, ?_, ?_⟩
  · intro r hr hrid
    simp only [wlog_store_documents] at hr
    unfold setDocumentStatus at hr
    rw [herr.2.1, hdocs, List.map_map] at hr
    obtain ⟨b, hb, hab⟩ := List.mem_map.1 hr
    by_cases hbid : b.id = row.id
    · simp only [Function.comp_apply] at hab
      simp [hbid] at hab
      subst hab
      exact ⟨rfl, rfl, by simp⟩
    · simp only [Function.comp_apply] at hab
      simp [hbid] at hab
      subst hab
      exact absurd hrid hbid
  · simp only [wlog_store_documents]
    rw [setDocumentStatus_counts, herr.2.1, hdocs, List.map_map]
    refine List.map_congr_left (fun d _ => ?_)
    by_cases hid : d.id = row.id
    · simp [hid]
    · simp [hid]
  · simp only [wlog_store_pipelineResults, setDocumentStatus_pipelineResults]
    rw [herr.2.2.2.2.1, hpr, List.filter_append]
    have hext_false : (("extraction" : String) == "fhir"
        || ("extraction" : String) == "validation") = false := by decide
    simp [hext_false]
  · simp only [wlog_store_safetyFlags, setDocumentStatus_safetyFlags]
    rw [herr.2.2.1, hsf]

/-- C5 witness: over the one-pending-document store, the
    standardization-throwing environment ends document A failed with the
    captured message, with no fhir/validation rows, no flags, and
    unchanged counters. -/
theorem C5_witness :
    (∀ r ∈ (tick envStdThrows w1).store.documents, r.id = "A" →
        r.status = .failed
        ∧ r.errorMessage = some "AkashML call failed: boom"
        ∧ r.status ≠ .pending)
    ∧ (tick envStdThrows w1).store.documents.map
          (fun r => (r.id, r.criticalFlagsCount))
        = w1.store.documents.map (fun r => (r.id, r.criticalFlagsCount))
    ∧ (tick envStdThrows w1).store.pipelineResults.filter
          (fun pr => pr.documentId == "A"
            && (pr.stage == "fhir" || pr.stage == "validation"))
        = w1.store.pipelineResults.filter
          (fun pr => pr.documentId == "A"
            && (pr.stage == "fhir" || pr.stage == "validation"))
    ∧ (tick envStdThrows w1).store.safetyFlags = w1.store.safetyFlags := by
  have h := C5_std_throw_fails_document envStdThrows w1 docA
    { raw := "ext", confidence := 1 } "AkashML call failed: boom"
    (by decide) rfl rfl
  exact h

end BioVault
